import Mathlib

/-!
# Verification of the pydytuesday client (`src/pydytuesday/__main__.py`)

Shallow embedding of the `TidyTuesdayPy` operations.  Dates are represented by
their proleptic-Gregorian ordinal (day 1 = 0001-01-01, a Monday), exactly the
representation `datetime.date.toordinal` uses, so that `datetime` subtraction of
a `timedelta(days = k)` is ordinal subtraction and `weekday()` (Monday = 0) is
`(ordinal + 6) % 7`.  Network interaction is modelled by environment records
that fix the response of every endpoint the code contacts; `print` calls that
report errors or notices are modelled as a log of `Msg` values, one constructor
per `print` statement of the source (purely informational listing output of
`print_output=True` is not logged).  A Python exception escaping a function is
modelled as `Except.error`; functions none of whose exceptions can escape are
total.
-/

namespace PydyTuesday

/-! ## String helpers (models of the Python `str` methods used by the source) -/

/-- Characters Python's `str.strip()` removes (ASCII whitespace model). -/
def pySpace (c : Char) : Bool :=
  c == ' ' || c == '\t' || c == '\n' || c == '\x0d' || c == '\x0b' || c == '\x0c'

/-- Model of Python `str.strip()`. -/
def pyStrip (s : String) : String :=
  ⟨((s.data.dropWhile pySpace).reverse.dropWhile pySpace).reverse⟩

/-- ASCII lower-casing of one character, as `str.lower()` does on ASCII input. -/
def pyLowerChar (c : Char) : Char :=
  if 'A' ≤ c ∧ c ≤ 'Z' then Char.ofNat (c.toNat + 32) else c

/-- Model of Python `str.lower()` (ASCII fragment). -/
def pyLower (s : String) : String :=
  ⟨s.data.map pyLowerChar⟩

/-- Model of Python `str.startswith`. -/
def pyStartsWith (s pre : String) : Bool :=
  pre.data.isPrefixOf s.data

/-- Model of Python `str.endswith`. -/
def pyEndsWith (s suf : String) : Bool :=
  suf.data.isSuffixOf s.data

/-- Model of Python slicing `s[:n]`. -/
def pyTake (s : String) (n : Nat) : String :=
  ⟨s.data.take n⟩

/-- Model of `os.path.splitext(name)[0]` for a bare file name (no directory
separators): split at the last dot, except when every character before that
dot is itself a dot (CPython's leading-dot rule, so `".hidden"` keeps its dot). -/
def splitextStem (s : String) : String :=
  let cs := s.data
  match cs.reverse.findIdx? (· == '.') with
  | none => s
  | some r =>
    let i := cs.length - 1 - r
    if (cs.take i).any (· != '.') then ⟨cs.take i⟩ else s

def isAsciiDigit (c : Char) : Bool :=
  '0' ≤ c && c ≤ '9'

/-- The regex `^\d{4}-\d{2}-\d{2}$` used by `tt_datasets` (ASCII digits). -/
def isDatePat (s : String) : Bool :=
  match s.data with
  | [a, b, c, d, e, f, g, h, i, j] =>
    isAsciiDigit a && isAsciiDigit b && isAsciiDigit c && isAsciiDigit d &&
    e == '-' && isAsciiDigit f && isAsciiDigit g && h == '-' &&
    isAsciiDigit i && isAsciiDigit j
  | _ => false

/-- Python's lexicographic (code-point) `<=` on strings, used by
`datasets.sort(key=lambda x: x["date"])`. -/
def chListLe : List Char → List Char → Bool
  | [], _ => true
  | _ :: _, [] => false
  | a :: as, b :: bs => a < b || (a == b && chListLe as bs)

def pyStrLe (s t : String) : Bool :=
  chListLe s.data t.data

/-! ## The Gregorian calendar as `datetime` implements it -/

/-- A calendar date, the value behind a `datetime` object (time of day never
matters to the source). -/
structure CivilDate where
  year : Nat
  month : Nat
  day : Nat
deriving DecidableEq, Repr

/-- `datetime`'s leap-year rule. -/
def isLeap (y : Nat) : Bool :=
  y % 4 == 0 && (y % 100 != 0 || y % 400 == 0)

/-- `_DAYS_IN_MONTH` of the `datetime` module (0 outside 1..12). -/
def daysInMonthTbl (leap : Bool) (m : Nat) : Nat :=
  match m with
  | 1 => 31 | 2 => if leap then 29 else 28 | 3 => 31 | 4 => 30
  | 5 => 31 | 6 => 30 | 7 => 31 | 8 => 31 | 9 => 30 | 10 => 31
  | 11 => 30 | 12 => 31 | _ => 0

/-- `_DAYS_BEFORE_MONTH` of the `datetime` module (non-leap cumulative days). -/
def daysBeforeMonthTbl (m : Nat) : Nat :=
  match m with
  | 1 => 0 | 2 => 31 | 3 => 59 | 4 => 90 | 5 => 120 | 6 => 151
  | 7 => 181 | 8 => 212 | 9 => 243 | 10 => 273 | 11 => 304 | 12 => 334
  | _ => 0

/-- Days before January 1 of year `y` (`datetime._days_before_year`). -/
def daysBeforeYear (y : Nat) : Nat :=
  (y - 1) * 365 + (y - 1) / 4 + (y - 1) / 400 - (y - 1) / 100

/-- `datetime.date.toordinal`: day 1 is 0001-01-01. -/
def ymd2ord (c : CivilDate) : Nat :=
  daysBeforeYear c.year + daysBeforeMonthTbl c.month +
    (if 2 < c.month ∧ isLeap c.year then 1 else 0) + c.day

/-- `datetime._ord2ymd`, the inverse conversion used when formatting the result. -/
def ord2ymd (n : Nat) : CivilDate :=
  let n0 := n - 1
  let n400 := n0 / 146097
  let r400 := n0 % 146097
  let n100 := r400 / 36524
  let r100 := r400 % 36524
  let n4 := r100 / 1461
  let r4 := r100 % 1461
  let n1 := r4 / 365
  let rem := r4 % 365
  let year := n400 * 400 + 1 + n100 * 100 + n4 * 4 + n1
  if n1 = 4 ∨ n100 = 4 then
    ⟨year - 1, 12, 31⟩
  else
    let leap := n1 == 3 && (n4 != 24 || n100 == 3)
    let month := (rem + 50) / 32
    let preceding := daysBeforeMonthTbl month + (if 2 < month ∧ leap = true then 1 else 0)
    if rem < preceding then
      let month' := month - 1
      let preceding' :=
        preceding - (daysInMonthTbl false month' +
          (if month' = 2 ∧ leap = true then 1 else 0))
      ⟨year, month', rem - preceding' + 1⟩
    else
      ⟨year, month, rem - preceding + 1⟩

/-- `datetime.date.weekday()` on an ordinal: Monday = 0 .. Sunday = 6. -/
def pyWeekday (n : Int) : Int :=
  (n + 6) % 7

/-- 1 ≤ y ≤ 9999, month and day in range: the dates `datetime` accepts. -/
def validDate (y m d : Nat) : Bool :=
  1 ≤ y && y ≤ 9999 && 1 ≤ m && m ≤ 12 && 1 ≤ d && d ≤ daysInMonthTbl (isLeap y) m

def digitsToNat (l : List Char) : Nat :=
  l.foldl (fun a c => a * 10 + (c.toNat - 48)) 0

/-- Model of `datetime.datetime.strptime(s, "%Y-%m-%d")`: three dash-separated
digit groups — `%Y` exactly four digits (CPython's `_strptime` pattern is
`\d\d\d\d`), `%m`/`%d` one or two — with ranges checked; failure is the
`ValueError` the source turns into its own `ValueError`. -/
def parseISO (s : String) : Option CivilDate :=
  match s.data.splitOn '-' with
  | [ys, ms, ds] =>
    if ys.length == 4 && 1 ≤ ms.length && ms.length ≤ 2 &&
        1 ≤ ds.length && ds.length ≤ 2 && (ys ++ ms ++ ds).all isAsciiDigit then
      let y := digitsToNat ys
      let m := digitsToNat ms
      let d := digitsToNat ds
      if validDate y m d then some ⟨y, m, d⟩ else none
    else none
  | _ => none

def digitChar (n : Nat) : Char :=
  Char.ofNat (48 + n % 10)

def pad2 (n : Nat) : String :=
  ⟨[digitChar (n / 10), digitChar n]⟩

def pad4 (n : Nat) : String :=
  ⟨[digitChar (n / 1000), digitChar (n / 100), digitChar (n / 10), digitChar n]⟩

/-- The year as glibc `strftime("%Y")` prints it: the decimal digits with no
zero padding (CPython delegates `%Y` to the platform `strftime`, which on
glibc renders year 999 as `"999"`); years up to 9999, as `datetime` allows. -/
def formatYear (y : Nat) : String :=
  if y < 10 then ⟨[digitChar y]⟩
  else if y < 100 then ⟨[digitChar (y / 10), digitChar y]⟩
  else if y < 1000 then ⟨[digitChar (y / 100), digitChar (y / 10), digitChar y]⟩
  else pad4 y

/-- `strftime("%Y-%m-%d")`: unpadded year, zero-padded month and day. -/
def formatISO (c : CivilDate) : String :=
  formatYear c.year ++ "-" ++ pad2 c.month ++ "-" ++ pad2 c.day

/-! ## `last_tuesday` -/

/-- Python exceptions that escape a modelled operation.  `overflowError` is
the `OverflowError` that `date - timedelta` raises when the result precedes
`date.min`; `pandasError` stands for the exceptions pandas parsing raises
that are not `pd.errors.ParserError` (e.g. the `ValueError` of `read_json`
on malformed JSON, `EmptyDataError` on empty input, `read_excel` failures),
which line 389's `ParserError` handler does not catch. -/
inductive PyError
  | typeError
  | valueError
  | overflowError
  | pandasError
deriving DecidableEq, Repr

/-- `days_since_tuesday = (date_obj.weekday() - 1) % 7` followed by
`date_obj - timedelta(days=days_since_tuesday)`, on ordinals. -/
def lastTuesdayOrd (n : Int) : Int :=
  n - (pyWeekday n - 1) % 7

/-- The argument of `last_tuesday`: an ISO string, a datetime value, or
anything else (the `TypeError` branch).  The no-argument case (current New
York date) is outside this pure model. -/
inductive LTArg
  | str (s : String)
  | dt (c : CivilDate)
  | other

/-- Shared tail of `last_tuesday`: step back to the Tuesday and format.
When the stepped-back ordinal precedes day 1 (only the Monday 0001-01-01
does this among valid dates) the `date - timedelta` of line 82 raises
`OverflowError`, uncaught. -/
def lastTuesdayCore (c : CivilDate) : Except PyError String :=
  if lastTuesdayOrd (ymd2ord c) < 1 then .error .overflowError
  else .ok (formatISO (ord2ymd (lastTuesdayOrd (ymd2ord c)).toNat))

/-- `TidyTuesdayPy.last_tuesday` (lines 58-84). -/
def lastTuesdayPy : LTArg → Except PyError String
  | .str s =>
    match parseISO s with
    | none => .error .valueError
    | some c => lastTuesdayCore c
  | .dt c => lastTuesdayCore c
  | .other => .error .typeError

/-! ## Notices and errors printed by the source

One constructor per error/notice `print` of the source, carrying the
interpolated data. -/

inductive Msg
  | exhausted                                      -- "GitHub API rate limit exhausted. ..."
  | rateLimitLow                                   -- "GitHub API rate limit is too low. ..."
  | errorFetchingDatasets (year : String)          -- "Error fetching datasets for year ..."
  | noDatasets (year : String)                     -- "No datasets found for year ..."
  | weekOutOfRange (week : Int) (year : String)    -- "Week number ... is out of range ..."
  | errorFetchingDate (date : String) (status : Nat) -- "Error fetching data for ...: ..."
  | genericError                                   -- tt_load_gh "Error: ..."
  | invalidData                                    -- "Invalid TidyTuesday data. Use tt_load_gh first."
  | indexOutOfRange (i : Int)                      -- "File index ... is out of range"
  | fileNotFound (name : String)                   -- "File '...' not found"
  | downloading (name : String)                    -- "Downloading ..."
  | downloadError                                  -- "Error downloading file: ..."
  | parseError                                     -- "Error parsing file: ..."
  | unsupportedFormat (name : String)              -- "Unsupported file format: ..."
  | successLoaded (name : String)                  -- "Successfully loaded ..."
  | warnNotFound (name : String)                   -- "Warning: File '...' not found"
  | downloadStatusError (name : String) (status : Nat) -- "Error downloading ...: <status>"
  | processError (name : String)                   -- "Error processing ...: ..."
  | batchError                                     -- "Error downloading files: ..."
deriving DecidableEq, Repr

/-! ## `tt_datasets` (the Release Catalog Resolver) -/

/-- Outcome of one `requests.get`: a raised `RequestException` or a response
with a status code and a body already parsed to the shape the code reads. -/
inductive HttpResp (α : Type)
  | err
  | resp (status : Nat) (body : α)
deriving DecidableEq, Repr

/-- One entry of a repository-contents API response. -/
structure ApiItem where
  name : String
  type : String
  download_url : String
  path : String
deriving DecidableEq, Repr

/-- A `ReleaseIdentifier` dictionary `{date, title, path}`. -/
structure Entry where
  date : String
  title : String
  path : String
deriving DecidableEq, Repr

/-- Everything the network returns to one `tt_datasets` call:
the remaining rate-limit budget (`none` = the `/rate_limit` request failed),
the rendered `readme.md` pages of the `main` and `master` branches (each body
is the row list of the page's first `<table>`, every row the list of its
cells' stripped text; a page without a table is the empty row list), and the
contents-API listing of the year directory. -/
structure DatasetsEnv where
  rateRemaining : Option Nat
  htmlMain : HttpResp (List (List String))
  htmlMaster : HttpResp (List (List String))
  api : HttpResp (List ApiItem)

/-- Lines 171-186: one table row to one dataset entry (`cells[1]` date,
`cells[2]` title, kept only with ≥ 3 cells and a matching date). -/
def rowToEntry (year : String) (cells : List String) : Option Entry :=
  if 3 ≤ cells.length then
    if isDatePat (pyStrip (cells.getD 1 "")) then
      some ⟨pyStrip (cells.getD 1 ""), pyStrip (cells.getD 2 ""),
        year ++ "/" ++ pyStrip (cells.getD 1 "")⟩
    else none
  else none

/-- The Tier-1 scrape of a rendered page: skip the header row, keep matching
rows. -/
def extractRows (year : String) (rows : List (List String)) : List Entry :=
  (rows.drop 1).filterMap (rowToEntry year)

/-- Lines 194-204 and 212-223: directory entries of the year to `"Unknown"`
entries. -/
def tier2Entries (year : String) (items : List ApiItem) : List Entry :=
  (items.filter (fun it => it.type == "dir")).filterMap fun f =>
    if isDatePat f.name then some ⟨f.name, "Unknown", year ++ "/" ++ f.name⟩ else none

/-- `requests.get` + `raise_for_status()` + `.json()` on the contents API:
`none` when a `RequestException` is raised (network error or status ≥ 400). -/
def apiList (r : HttpResp (List ApiItem)) : Option (List ApiItem) :=
  match r with
  | .err => none
  | .resp st items => if st < 400 then some items else none

/-- The Tier-1 stage (lines 147-186): fetch the `main` page, fall back to
`master` on a non-200 status; `.error c` is a `RequestException` after `c`
requests, `.ok (entries, c)` the scraped entries after `c` requests. -/
def tier1Stage (env : DatasetsEnv) (year : String) : Except Nat (List Entry × Nat) :=
  match env.htmlMain with
  | .err => .error 1
  | .resp st rows =>
    if st = 200 then .ok (extractRows year rows, 1)
    else
      match env.htmlMaster with
      | .err => .error 2
      | .resp st2 rows2 => .ok ((if st2 = 200 then extractRows year rows2 else []), 2)

/-- Lines 141-223, everything before the sort: the inner `try` (Tier 1, then
Tier 2 when Tier 1 scraped nothing, lines 188-204), and on a
`RequestException` the inner `except` branch which retries the Tier-2 API
call (lines 206-223).  `.error` is the `RequestException` that reaches the
outer handler (which prints and returns `[]`). -/
def ttDatasetsInner (env : DatasetsEnv) (year : String) : Except Nat (List Entry × Nat) :=
  match tier1Stage env year with
  | .error c => .error c
  | .ok (ds, c) =>
    if ds.isEmpty then
      match apiList env.api with
      | some items => .ok (tier2Entries year items, c + 1)
      | none => .error (c + 1)
    else .ok (ds, c)

def ttDatasetsRaw (env : DatasetsEnv) (year : String) :
    Except (Nat × List Msg) (List Entry × Nat) :=
  match ttDatasetsInner env year with
  | .ok (ds, c) => .ok (ds, c)
  | .error c =>
    match apiList env.api with
    | some items => .ok (tier2Entries year items, c + 1)
    | none => .error (c + 1, [Msg.errorFetchingDatasets year])

/-- The pre-sort entry list (`[]` when the outer handler fires). -/
def ttDatasetsRawList (env : DatasetsEnv) (year : String) : List Entry :=
  match ttDatasetsRaw env year with
  | .ok (l, _) => l
  | .error _ => []

/-- The sort key relation of `datasets.sort(key=lambda x: x["date"])`. -/
def dateLe (a b : Entry) : Prop :=
  pyStrLe a.date b.date = true

instance : DecidableRel dateLe := fun a b =>
  inferInstanceAs (Decidable (pyStrLe a.date b.date = true))

/-- What one `tt_datasets` call produces: the returned list, how many
requests it made to the listing endpoints (the rendered pages and the
contents API; the `/rate_limit` refresh is a separate endpoint and not
counted), and the notices it printed. -/
structure DatasetsOut where
  result : List Entry
  lookupCalls : Nat
  msgs : List Msg
deriving DecidableEq, Repr

/-- `TidyTuesdayPy.tt_datasets` (lines 125-238): the budget guard (lines
136-139, firing only on a reported budget of exactly 0), the tiered lookup,
and the final ascending sort by date (line 226). -/
def ttDatasets (env : DatasetsEnv) (year : String) : DatasetsOut :=
  match env.rateRemaining with
  | some 0 => ⟨[], 0, [Msg.exhausted]⟩
  | _ =>
    match ttDatasetsRaw env year with
    | .ok (ds, c) => ⟨List.insertionSort dateLe ds, c, []⟩
    | .error (c, m) => ⟨[], c, m⟩

/-! ## `tt_load_gh` (the Release Metadata Fetcher) -/

/-- A `FileReference` dictionary `{name, download_url, path}`. -/
structure FileRef where
  name : String
  download_url : String
  path : String
deriving DecidableEq, Repr

/-- The `ReleaseMetadata` dictionary `tt_load_gh` returns on success. -/
structure TTMeta where
  date : String
  year : String
  files : List FileRef
  readme_content : String
  readme_html : String
deriving DecidableEq, Repr

/-- Model of the external `markdown.markdown` conversion: treated as an
unspecified total function, modelled as the identity on the markdown text
(none of the claims depends on the conversion itself). -/
def markdownRender (s : String) : String := s

/-- The fixed HTML shell of `_markdown_to_html` before the converted body
(CSS braces written out; whitespace condensed). -/
def htmlShellPre : String :=
  "\n<!DOCTYPE html>\n<html>\n<head>\n<title>TidyTuesday README</title>\n" ++
  "<style>\nbody \x7b font-family: Arial, sans-serif; margin: 20px; line-height: 1.6; \x7d\n" ++
  "h1, h2, h3 \x7b color: #333; \x7d\n" ++
  "pre \x7b background-color: #f4f4f4; padding: 10px; border-radius: 5px; \x7d\n" ++
  "a \x7b color: #0366d6; \x7d\n</style>\n</head>\n<body>\n"

def htmlShellPost : String := "\n</body>\n</html>\n"

/-- `TidyTuesdayPy._markdown_to_html` (lines 528-556). -/
def markdownToHtml (md : String) : String :=
  htmlShellPre ++ markdownRender md ++ htmlShellPost

/-- Everything the network returns to one `tt_load_gh` call: the
`tt_datasets` environment (whose budget field is also what the call's own
`rate_limit_check` at line 251 reads), the contents API for the week
directory, and the raw README of the `main` and `master` branches. -/
structure LoadGhEnv where
  ds : DatasetsEnv
  filesApi : HttpResp (List ApiItem)
  readmeMain : HttpResp String
  readmeMaster : HttpResp String

/-- The argument pair of `tt_load_gh`: a date string, or a year plus week
number. -/
inductive GhArg
  | date (s : String)
  | yearWeek (year : String) (week : Int)

/-- Return value and printed notices of a `tt_load_gh` call; `ret = none` is
the empty dictionary `{}`. -/
structure GhOut where
  ret : Option TTMeta
  msgs : List Msg
deriving DecidableEq, Repr

/-- Lines 295-304: README of `main`, falling back to `master`; `.error` is a
`RequestException` from `requests.get` (caught by the broad handler of
line 317). -/
def readmeFetch (env : LoadGhEnv) : Except Unit String :=
  match env.readmeMain with
  | .err => .error ()
  | .resp st1 txt1 =>
    if st1 = 200 then .ok txt1
    else
      match env.readmeMaster with
      | .err => .error ()
      | .resp st2 txt2 => .ok (if st2 = 200 then txt2 else "")

/-- `TidyTuesdayPy.tt_load_gh` (lines 240-319).  Line 251 compares the
refreshed budget with 5; when the budget is unknown (`None`) that comparison
itself raises `TypeError`, before the `try` of line 255, so it escapes the
function — hence `Except`. -/
def ttLoadGh (env : LoadGhEnv) (arg : GhArg) : Except PyError GhOut :=
  match env.ds.rateRemaining with
  | none => .error .typeError
  | some r =>
    if r < 5 then .ok ⟨none, [Msg.rateLimitLow]⟩
    else
      let resolved : Except (List Msg) (String × String) :=
        match arg with
        | .yearWeek y w =>
          let ds := (ttDatasets env.ds y).result
          if ds.isEmpty then .error [Msg.noDatasets y]
          else if w < 1 ∨ (ds.length : Int) < w then .error [Msg.weekOutOfRange w y]
          else .ok ((ds.getD (w - 1).toNat ⟨"", "", ""⟩).date, y)
        | .date s => .ok (s, pyTake s 4)
      match resolved with
      | .error m => .ok ⟨none, m⟩
      | .ok (date, year) =>
        match env.filesApi with
        | .err => .ok ⟨none, [Msg.genericError]⟩
        | .resp st items =>
          if st ≠ 200 then .ok ⟨none, [Msg.errorFetchingDate date st]⟩
          else
            let files := items.filterMap fun it =>
              if it.type == "file" ∧ ¬ pyStartsWith (pyLower it.name) "readme" = true
              then some (⟨it.name, it.download_url, it.path⟩ : FileRef)
              else none
            match readmeFetch env with
            | .error _ => .ok ⟨none, [Msg.genericError]⟩
            | .ok content =>
              .ok ⟨some ⟨date, year, files, content, markdownToHtml content⟩, []⟩

/-! ## `tt_download_file` and `tt_download` (the File Materializer) -/

/-- A materialized tabular structure (`pandas.DataFrame` at the granularity
the claims need); `pd.DataFrame()` is the empty one. -/
structure DataFrame where
  rows : List (List String)
deriving DecidableEq, Repr

def emptyDF : DataFrame := ⟨[]⟩

/-- The parse dispatched on the file extension. -/
inductive TabFormat
  | csv
  | tsv
  | excel
  | json
  | parquet
deriving DecidableEq, Repr

/-- Outcome of one pandas parse of staged content: a frame, the
`pd.errors.ParserError` that malformed tabular content raises, or any other
pandas exception (`ValueError` from `read_json`, `EmptyDataError`,
`read_excel` failures) — which the single-file handlers of lines 385-392 do
NOT catch. -/
inductive ParseOutcome
  | ok (df : DataFrame)
  | parserError
  | otherError
deriving DecidableEq, Repr

/-- Outcome of one `requests.get` for a download URL. -/
inductive Transp
  | netErr
  | resp (status : Nat) (content : String)
deriving DecidableEq, Repr

/-- The download environment: the transport outcome per download URL and the
pandas parse outcome per format and content. -/
structure FetchEnv where
  fetch : String → Transp
  parse : TabFormat → String → ParseOutcome

/-- Lines 364-377: extension dispatch of the single-file path (case done on
the lower-cased name; `.parquet` is supported here). -/
def formatOfSingle (lowerName : String) : Option TabFormat :=
  if pyEndsWith lowerName ".csv" then some .csv
  else if pyEndsWith lowerName ".tsv" then some .tsv
  else if pyEndsWith lowerName ".xls" ∨ pyEndsWith lowerName ".xlsx" then some .excel
  else if pyEndsWith lowerName ".json" then some .json
  else if pyEndsWith lowerName ".parquet" then some .parquet
  else none

/-- Lines 445-455: extension dispatch of the batch path (no `.parquet`). -/
def formatOfBatch (lowerName : String) : Option TabFormat :=
  if pyEndsWith lowerName ".csv" then some .csv
  else if pyEndsWith lowerName ".tsv" then some .tsv
  else if pyEndsWith lowerName ".xls" ∨ pyEndsWith lowerName ".xlsx" then some .excel
  else if pyEndsWith lowerName ".json" then some .json
  else none

/-- The `file_identifier` argument: 0-based index or file name. -/
inductive FileIdent
  | byIndex (i : Int)
  | byName (s : String)

/-- Lines 340-351: resolve the identifier against the file list. -/
def lookupFile (files : List FileRef) (ident : FileIdent) : Except Msg FileRef :=
  match ident with
  | .byIndex i =>
    if i < 0 ∨ (files.length : Int) ≤ i then .error (Msg.indexOutOfRange i)
    else .ok (files.getD i.toNat ⟨"", "", ""⟩)
  | .byName s =>
    match files.find? (fun f => f.name == s) with
    | some f => .ok f
    | none => .error (Msg.fileNotFound s)

/-- Return value and printed notices of a `tt_download_file` call. -/
structure DlOut where
  df : DataFrame
  msgs : List Msg
deriving DecidableEq, Repr

/-- `TidyTuesdayPy.tt_download_file` (lines 321-392, `verbose=True`).  The
handlers of lines 385-392 catch only the `RequestException` of the transport
and the `ParserError` of the parse; any other pandas exception (modelled by
`ParseOutcome.otherError`) escapes the function — hence `Except`. -/
def ttDownloadFile (env : FetchEnv) (tt : Option TTMeta) (ident : FileIdent) :
    Except PyError DlOut :=
  match tt with
  | none => .ok ⟨emptyDF, [Msg.invalidData]⟩
  | some meta =>
    match lookupFile meta.files ident with
    | .error m => .ok ⟨emptyDF, [m]⟩
    | .ok fi =>
      match env.fetch fi.download_url with
      | .netErr => .ok ⟨emptyDF, [Msg.downloading fi.name, Msg.downloadError]⟩
      | .resp st content =>
        if 400 ≤ st then .ok ⟨emptyDF, [Msg.downloading fi.name, Msg.downloadError]⟩
        else
          let lower := pyLower fi.name
          match formatOfSingle lower with
          | none => .ok ⟨emptyDF, [Msg.downloading fi.name, Msg.unsupportedFormat lower]⟩
          | some fmt =>
            match env.parse fmt content with
            | .ok df => .ok ⟨df, [Msg.downloading fi.name, Msg.successLoaded fi.name]⟩
            | .parserError => .ok ⟨emptyDF, [Msg.downloading fi.name, Msg.parseError]⟩
            | .otherError => .error .pandasError

/-- The `files` argument of `tt_download`: the `"All"` sentinel or explicit
names (a single string is wrapped into a one-element list by the code). -/
inductive FilesSel
  | all
  | names (l : List String)

/-- Lines 412-424: resolve the selector, warning on unknown names. -/
def selectFiles (avail : List FileRef) (sel : FilesSel) : List FileRef × List Msg :=
  match sel with
  | .all => (avail, [])
  | .names ns =>
    ns.foldl
      (fun acc n =>
        match avail.find? (fun f => f.name == n) with
        | some f => (acc.1 ++ [f], acc.2)
        | none => (acc.1, acc.2 ++ [Msg.warnNotFound n]))
      ([], [])

/-- Python `dict` assignment `d[k] = v` on an insertion-ordered association
list: an existing key keeps its position and gets the new value, a new key
is appended (CPython's insertion-order semantics). -/
def pyDictInsert {α : Type} (l : List (String × α)) (k : String) (v : α) :
    List (String × α) :=
  if l.any (fun p => p.1 == k) then l.map (fun p => if p.1 == k then (k, v) else p)
  else l ++ [(k, v)]

/-- Return value and printed notices of a `tt_download` call; `result` is the
name-to-frame dictionary as the insertion-ordered association list the loop
builds via `result[key] = df` (line 459, so a repeated base name overwrites). -/
structure BatchOut where
  result : List (String × DataFrame)
  msgs : List Msg
deriving DecidableEq, Repr

/-- The download loop of lines 427-467.  A `RequestException` from
`requests.get` (line 431) is caught only by the outer handler of line 471,
which discards everything and returns `{}`; a non-200 status and any parsing
exception (the inner `except Exception` of line 462 catches ParserError and
every other pandas error alike) merely skip the file (`continue`).  A
successful parse stores the frame with `result[key] = df` (line 459):
`pyDictInsert`, so a duplicate base name overwrites the earlier frame. -/
def dlLoop (env : FetchEnv) : List FileRef → List (String × DataFrame) → List Msg → BatchOut
  | [], acc, ms => ⟨acc, ms⟩
  | f :: rest, acc, ms =>
    let ms1 := ms ++ [Msg.downloading f.name]
    match env.fetch f.download_url with
    | .netErr => ⟨[], ms1 ++ [Msg.batchError]⟩
    | .resp st content =>
      if st ≠ 200 then dlLoop env rest acc (ms1 ++ [Msg.downloadStatusError f.name st])
      else
        match formatOfBatch (pyLower f.name) with
        | none => dlLoop env rest acc (ms1 ++ [Msg.unsupportedFormat f.name])
        | some fmt =>
          match env.parse fmt content with
          | .ok df =>
            dlLoop env rest (pyDictInsert acc (splitextStem f.name) df)
              (ms1 ++ [Msg.successLoaded f.name])
          | .parserError => dlLoop env rest acc (ms1 ++ [Msg.processError f.name])
          | .otherError => dlLoop env rest acc (ms1 ++ [Msg.processError f.name])

/-- `TidyTuesdayPy.tt_download` (lines 394-473). -/
def ttDownload (env : FetchEnv) (tt : Option TTMeta) (sel : FilesSel) : BatchOut :=
  match tt with
  | none => ⟨[], [Msg.invalidData]⟩
  | some meta =>
    let sm := selectFiles meta.files sel
    dlLoop env sm.1 [] sm.2

/-! ## `tt_load` (the Aggregator) -/

/-- A value of the composite dictionary `tt_load` returns. -/
inductive PyVal
  | s (v : String)
  | df (v : DataFrame)
deriving DecidableEq, Repr

/-- Lines 498-504: the composite dictionary literal — `date`, `year`,
`readme_content`, `readme_html`, then the `**data` spread, which inserts
each downloaded frame with Python dict semantics: a data key equal to one of
the four metadata keys overwrites that metadata entry. -/
def compositeDict (meta : TTMeta) (data : List (String × DataFrame)) :
    List (String × PyVal) :=
  data.foldl (fun acc p => pyDictInsert acc p.1 (PyVal.df p.2))
    [("date", PyVal.s meta.date), ("year", PyVal.s meta.year),
     ("readme_content", PyVal.s meta.readme_content),
     ("readme_html", PyVal.s meta.readme_html)]

/-- The environment of one `tt_load` call. -/
structure LoadEnv where
  gh : LoadGhEnv
  dl : FetchEnv

/-- Return value and printed notices of a `tt_load` call. -/
structure LoadOut where
  dict : List (String × PyVal)
  msgs : List Msg
deriving DecidableEq, Repr

/-- `TidyTuesdayPy.tt_load` (lines 475-506): metadata, then downloads, then
the composite.  It has no handler of its own, so the `TypeError` that
`tt_load_gh` raises on an unknown budget passes through. -/
def ttLoad (env : LoadEnv) (arg : GhArg) (sel : FilesSel) : Except PyError LoadOut :=
  match ttLoadGh env.gh arg with
  | .error e => .error e
  | .ok out =>
    match out.ret with
    | none => .ok ⟨[], out.msgs⟩
    | some meta =>
      let b := ttDownload env.dl (some meta) sel
      .ok ⟨compositeDict meta b.result, out.msgs ++ b.msgs⟩

/-! ## Derived views of the model used by the claims -/

/-- "The call returned rather than raised." -/
def isOkE {ε α : Type} : Except ε α → Bool
  | .ok _ => true
  | .error _ => false

/-- Projection of a non-raising `tt_load_gh` outcome: `some none` is the
empty dictionary `{}`, `some (some m)` metadata `m`, `none` a raise. -/
def ghRet (x : Except PyError GhOut) : Option (Option TTMeta) :=
  match x with
  | .ok o => some o.ret
  | .error _ => none

def ghMsgs (x : Except PyError GhOut) : List Msg :=
  match x with
  | .ok o => o.msgs
  | .error _ => []

/-- The file list inside a `tt_load_gh` return value. -/
def ghFiles (x : Except PyError GhOut) : List FileRef :=
  match x with
  | .ok o =>
    match o.ret with
    | some m => m.files
    | none => []
  | .error _ => []

/-- The dictionary a non-raising `tt_load` returned (`[]` for a raise). -/
def loadDict (x : Except PyError LoadOut) : List (String × PyVal) :=
  match x with
  | .ok o => o.dict
  | .error _ => []

def loadKeys (x : Except PyError LoadOut) : List String :=
  (loadDict x).map Prod.fst

/-- "Tier 1 yielded zero valid rows": the scrape stage either raised or
extracted nothing. -/
def tier1EmptyB (env : DatasetsEnv) (year : String) : Bool :=
  match tier1Stage env year with
  | .error _ => true
  | .ok (l, _) => l.isEmpty

/-- The date-cell texts a rendered page offers (stripped second cells of the
non-header rows). -/
def htmlCandidates (r : HttpResp (List (List String))) : List String :=
  match r with
  | .err => []
  | .resp _ rows => (rows.drop 1).map (fun cells => pyStrip (cells.getD 1 ""))

/-- The names a contents-API listing offers. -/
def apiNames (r : HttpResp (List ApiItem)) : List String :=
  match r with
  | .err => []
  | .resp _ items => items.map ApiItem.name

/-- Every date string the environment could have supplied to `tt_datasets`. -/
def sourceDateStrings (env : DatasetsEnv) : List String :=
  htmlCandidates env.htmlMain ++ htmlCandidates env.htmlMaster ++ apiNames env.api

/-! ## Concrete environments evaluated by the witnesses and counterexamples -/

def c4env : DatasetsEnv := ⟨some 0, .err, .err, .err⟩

/-- A rendered listing whose table repeats a date across two rows. -/
def c2env : DatasetsEnv :=
  ⟨some 10,
   .resp 200 [["Week", "Date", "Data"], ["1", "2025-01-07", "A"], ["2", "2025-01-07", "B"]],
   .resp 404 [], .resp 200 []⟩

/-- A rendered listing with two distinct dates, out of order. -/
def c2aenv : DatasetsEnv :=
  ⟨some 10,
   .resp 200 [["Week", "Date", "Data"], ["1", "2025-01-14", "A"], ["2", "2025-01-07", "B"]],
   .resp 404 [], .resp 200 []⟩

def c5items : List ApiItem :=
  [⟨"2025-01-07", "dir", "", ""⟩, ⟨"readme.md", "file", "", ""⟩,
   ⟨"2025-01-14", "dir", "", ""⟩]

/-- A page whose table has no valid data row, and a directory listing. -/
def c5env : DatasetsEnv :=
  ⟨some 10, .resp 200 [["Week", "Date", "Data"], ["only", "header-like", "junk"]],
   .resp 404 [], .resp 200 c5items⟩

/-- A page listing a date from another year under the 2025 directory. -/
def c9env : DatasetsEnv :=
  ⟨some 10, .resp 200 [["h", "h", "h"], ["x", "1999-01-05", "Old"]], .err, .err⟩

def c6env : LoadGhEnv :=
  ⟨⟨some 10,
    .resp 200 [["Week", "Date", "Data"], ["1", "2025-01-07", "A"]],
    .err, .err⟩, .err, .err, .err⟩

def c3envG : LoadGhEnv := ⟨⟨some 10, .err, .err, .err⟩, .err, .err, .err⟩

def c3envL : LoadEnv := ⟨c3envG, ⟨fun _ => .netErr, fun _ _ => .parserError⟩⟩

/-- The `/rate_limit` request failed: the budget is unknown (`None`). -/
def c3envRaise : LoadGhEnv := ⟨⟨none, .err, .err, .err⟩, .err, .err, .err⟩

def c7meta : TTMeta :=
  ⟨"2025-01-07", "2025", [⟨"data.xyz", "u1", "p1"⟩, ⟨"table.csv", "u2", "p2"⟩], "", ""⟩

def c7env : FetchEnv :=
  ⟨fun u => if u == "u1" then .resp 200 "blob" else .resp 200 "a,b",
   fun _ _ => .ok ⟨[["a", "b"]]⟩⟩

def c8meta : TTMeta :=
  ⟨"2025-01-07", "2025", [⟨"bad.csv", "u1", "p1"⟩, ⟨"gone.csv", "u2", "p2"⟩], "", ""⟩

def c8env : FetchEnv :=
  ⟨fun u => if u == "u1" then .resp 200 "a,b" else .netErr,
   fun _ _ => .parserError⟩

/-- Every parse raises a pandas exception other than `ParserError` (such as
the `ValueError` of `read_json` on malformed JSON). -/
def c8oenv : FetchEnv :=
  ⟨fun _ => .resp 200 "x", fun _ _ => .otherError⟩

def c10gh : LoadGhEnv :=
  ⟨⟨some 10, .err, .err, .err⟩,
   .resp 200 [⟨"flights.csv", "file", "u1", "p1"⟩],
   .resp 200 "hello", .err⟩

def c10env : LoadEnv :=
  ⟨c10gh, ⟨fun _ => .resp 200 "a,b", fun _ _ => .ok ⟨[["1", "2"]]⟩⟩⟩

/-! ## General lemmas about the model -/

instance exceptDecEq {ε α : Type} [DecidableEq ε] [DecidableEq α] :
    DecidableEq (Except ε α) := fun a b =>
  match a, b with
  | .ok x, .ok y => if h : x = y then .isTrue (by rw [h]) else .isFalse (by simp [h])
  | .error x, .error y => if h : x = y then .isTrue (by rw [h]) else .isFalse (by simp [h])
  | .ok _, .error _ => .isFalse (by simp)
  | .error _, .ok _ => .isFalse (by simp)

theorem chListLe_total : ∀ a b : List Char, chListLe a b = true ∨ chListLe b a = true
  | [], _ => Or.inl rfl
  | _ :: _, [] => Or.inr rfl
  | a :: as, b :: bs => by
    rcases lt_trichotomy a b with h | h | h
    · left; simp [chListLe, h]
    · subst h
      rcases chListLe_total as bs with ih | ih <;> [left; right] <;>
        simp [chListLe, ih, le_refl]
    · right; simp [chListLe, h]

theorem chListLe_trans : ∀ a b c : List Char,
    chListLe a b = true → chListLe b c = true → chListLe a c = true
  | [], _, _, _, _ => rfl
  | a :: as, b :: bs, c :: cs, h1, h2 => by
    simp only [chListLe, Bool.or_eq_true, Bool.and_eq_true, beq_iff_eq,
      decide_eq_true_eq] at h1 h2 ⊢
    rcases h1 with h1 | ⟨rfl, h1⟩
    · rcases h2 with h2 | ⟨rfl, h2⟩
      · exact Or.inl (lt_trans h1 h2)
      · exact Or.inl h1
    · rcases h2 with h2 | ⟨rfl, h2⟩
      · exact Or.inl h2
      · exact Or.inr ⟨rfl, chListLe_trans as bs cs h1 h2⟩
  | _ :: _, [], _, h1, _ => by simp [chListLe] at h1
  | _ :: _, _ :: _, [], _, h2 => by simp [chListLe] at h2

instance : IsTotal Entry dateLe :=
  ⟨fun (a b : Entry) => chListLe_total a.date.data b.date.data⟩

instance : IsTrans Entry dateLe :=
  ⟨fun (a b c : Entry) => chListLe_trans a.date.data b.date.data c.date.data⟩

/-- Case analysis on the result of `ttDatasets`: empty, or the sorted image
of a successful raw lookup. -/
theorem ttDatasets_result_cases (env : DatasetsEnv) (year : String) :
    (ttDatasets env year).result = [] ∨
    ∃ l c, ttDatasetsRaw env year = .ok (l, c) ∧
      (ttDatasets env year).result = List.insertionSort dateLe l := by
  unfold ttDatasets
  rcases env.rateRemaining with _ | n
  · rcases h : ttDatasetsRaw env year with ⟨c, m⟩ | ⟨l, c⟩
    · exact Or.inl rfl
    · exact Or.inr ⟨l, c, rfl, rfl⟩
  · rcases n with _ | n
    · exact Or.inl rfl
    · rcases h : ttDatasetsRaw env year with ⟨c, m⟩ | ⟨l, c⟩
      · exact Or.inl rfl
      · exact Or.inr ⟨l, c, rfl, rfl⟩

/-- When Tier 1 scraped nothing and the API listing succeeds, the raw lookup
returns the Tier-2 entries. -/
theorem ttDatasetsRaw_tier2 (env : DatasetsEnv) (year : String) (items : List ApiItem)
    (h1 : tier1EmptyB env year = true) (h2 : apiList env.api = some items) :
    ∃ c, ttDatasetsRaw env year = .ok (tier2Entries year items, c) := by
  unfold ttDatasetsRaw ttDatasetsInner
  unfold tier1EmptyB at h1
  rcases hs : tier1Stage env year with c | ⟨l, c⟩
  · rw [hs] at h1
    simp only [h2]
    exact ⟨c + 1, rfl⟩
  · rw [hs] at h1
    have hl : l = [] := by simpa using h1
    subst hl
    simp only [h2]
    exact ⟨c + 1, rfl⟩

theorem mem_extractRows (year : String) (rows : List (List String)) (e : Entry)
    (h : e ∈ extractRows year rows) :
    e.path = year ++ "/" ++ e.date ∧ isDatePat e.date = true
    ∧ e.date ∈ (rows.drop 1).map (fun cells => pyStrip (cells.getD 1 "")) := by
  obtain ⟨cells, hc, he⟩ := List.mem_filterMap.mp h
  unfold rowToEntry at he
  split at he
  · split at he
    · obtain rfl : (⟨pyStrip (cells.getD 1 ""), pyStrip (cells.getD 2 ""),
          year ++ "/" ++ pyStrip (cells.getD 1 "")⟩ : Entry) = e := Option.some.inj he
      refine ⟨rfl, by assumption, List.mem_map.mpr ⟨cells, hc, rfl⟩⟩
    · exact absurd he (by simp)
  · exact absurd he (by simp)

theorem mem_tier2Entries (year : String) (items : List ApiItem) (e : Entry)
    (h : e ∈ tier2Entries year items) :
    e.path = year ++ "/" ++ e.date ∧ isDatePat e.date = true ∧ e.title = "Unknown"
    ∧ e.date ∈ items.map ApiItem.name := by
  obtain ⟨it, hit, he⟩ := List.mem_filterMap.mp h
  split at he
  · obtain rfl : (⟨it.name, "Unknown", year ++ "/" ++ it.name⟩ : Entry) = e :=
      Option.some.inj he
    refine ⟨rfl, by assumption, rfl, ?_⟩
    exact List.mem_map.mpr ⟨it, (List.mem_filter.mp hit).1, rfl⟩
  · exact absurd he (by simp)

theorem apiList_eq_some (r : HttpResp (List ApiItem)) (items : List ApiItem)
    (h : apiList r = some items) : ∃ st, r = .resp st items ∧ st < 400 := by
  rcases r with _ | ⟨st, its⟩
  · exact absurd h (by simp [apiList])
  · simp only [apiList] at h
    split at h
    · exact ⟨st, by rw [Option.some.inj h], by assumption⟩
    · exact absurd h (by simp)

/-- What a successful Tier-1 stage can have produced. -/
theorem tier1Stage_ok_cases (env : DatasetsEnv) (year : String) (l0 : List Entry) (c0 : Nat)
    (h : tier1Stage env year = .ok (l0, c0)) :
    (∃ rows, env.htmlMain = .resp 200 rows ∧ l0 = extractRows year rows) ∨
    (∃ rows2, env.htmlMaster = .resp 200 rows2 ∧ l0 = extractRows year rows2) ∨
    l0 = [] := by
  unfold tier1Stage at h
  rcases hm : env.htmlMain with _ | ⟨st, rows⟩ <;> rw [hm] at h <;> dsimp only at h
  · exact absurd h (by simp)
  · by_cases h200 : st = 200
    · rw [if_pos h200] at h
      subst h200
      exact Or.inl ⟨rows, rfl, (congrArg Prod.fst (Except.ok.inj h)).symm⟩
    · rw [if_neg h200] at h
      rcases hm2 : env.htmlMaster with _ | ⟨st2, rows2⟩ <;> rw [hm2] at h <;> dsimp only at h
      · exact absurd h (by simp)
      · have hl : (if st2 = 200 then extractRows year rows2 else []) = l0 :=
          congrArg Prod.fst (Except.ok.inj h)
        by_cases h2 : st2 = 200
        · subst h2
          rw [if_pos rfl] at hl
          exact Or.inr (Or.inl ⟨rows2, rfl, hl.symm⟩)
        · rw [if_neg h2] at hl
          exact Or.inr (Or.inr hl.symm)

theorem ttDatasetsInner_ok_cases (env : DatasetsEnv) (year : String) (l : List Entry) (c : Nat)
    (h : ttDatasetsInner env year = .ok (l, c)) :
    (∃ c0, tier1Stage env year = .ok (l, c0)) ∨
    (∃ items, apiList env.api = some items ∧ l = tier2Entries year items) := by
  unfold ttDatasetsInner at h
  rcases hs : tier1Stage env year with c0 | ⟨l0, c0⟩ <;> rw [hs] at h <;> dsimp only at h
  · exact absurd h (by simp)
  · by_cases hemp : l0.isEmpty = true
    · rw [if_pos hemp] at h
      rcases hit : apiList env.api with _ | items <;> rw [hit] at h <;> dsimp only at h
      · exact absurd h (by simp)
      · exact Or.inr ⟨items, rfl, (congrArg Prod.fst (Except.ok.inj h)).symm⟩
    · rw [if_neg hemp] at h
      obtain rfl : l0 = l := congrArg Prod.fst (Except.ok.inj h)
      exact Or.inl ⟨c0, rfl⟩

theorem ttDatasetsRaw_ok_cases (env : DatasetsEnv) (year : String) (l : List Entry) (c : Nat)
    (h : ttDatasetsRaw env year = .ok (l, c)) :
    (∃ c0, tier1Stage env year = .ok (l, c0)) ∨
    (∃ items, apiList env.api = some items ∧ l = tier2Entries year items) := by
  unfold ttDatasetsRaw at h
  rcases hi : ttDatasetsInner env year with c0 | ⟨l0, c0⟩ <;> rw [hi] at h <;> dsimp only at h
  · rcases hit : apiList env.api with _ | items <;> rw [hit] at h <;> dsimp only at h
    · exact absurd h (by simp)
    · exact Or.inr ⟨items, rfl, (congrArg Prod.fst (Except.ok.inj h)).symm⟩
  · obtain rfl : l0 = l := congrArg Prod.fst (Except.ok.inj h)
    exact ttDatasetsInner_ok_cases env year l0 c0 hi


/-- The `400/100/4/1`-cycle decomposition of `_ord2ymd` recovers the year
and the day offset; the special branch fires exactly on the leap-year
December 31. -/
theorem yearDecomp (y K : Nat) (h1 : 1 ≤ y) (h2 : y ≤ 9999)
    (hK : K < 365 + (if isLeap y then 1 else 0)) :
    (K < 365 →
      (daysBeforeYear y + K) / 146097 * 400 + 1
        + (daysBeforeYear y + K) % 146097 / 36524 * 100
        + (daysBeforeYear y + K) % 146097 % 36524 / 1461 * 4
        + (daysBeforeYear y + K) % 146097 % 36524 % 1461 / 365 = y
      ∧ (daysBeforeYear y + K) % 146097 % 36524 % 1461 % 365 = K
      ∧ ¬((daysBeforeYear y + K) % 146097 % 36524 % 1461 / 365 = 4
          ∨ (daysBeforeYear y + K) % 146097 / 36524 = 4)
      ∧ (((daysBeforeYear y + K) % 146097 % 36524 % 1461 / 365 == 3
          && ((daysBeforeYear y + K) % 146097 % 36524 / 1461 != 24
            || (daysBeforeYear y + K) % 146097 / 36524 == 3)) = isLeap y))
    ∧ (K = 365 →
      (daysBeforeYear y + K) / 146097 * 400 + 1
        + (daysBeforeYear y + K) % 146097 / 36524 * 100
        + (daysBeforeYear y + K) % 146097 % 36524 / 1461 * 4
        + (daysBeforeYear y + K) % 146097 % 36524 % 1461 / 365 = y + 1
      ∧ ((daysBeforeYear y + K) % 146097 % 36524 % 1461 / 365 = 4
          ∨ (daysBeforeYear y + K) % 146097 / 36524 = 4)) := by
  obtain ⟨a, c, f, g, hy, hc, hf, hg⟩ :
      ∃ a c f g, y - 1 = 400 * a + 100 * c + 4 * f + g ∧ c < 4 ∧ f < 25 ∧ g < 4 := by
    refine ⟨(y - 1) / 400, (y - 1) % 400 / 100, (y - 1) % 400 % 100 / 4,
      (y - 1) % 400 % 100 % 4, by omega, by omega, by omega, by omega⟩
  have hdb : daysBeforeYear y = 146097 * a + 36524 * c + 1461 * f + 365 * g := by
    unfold daysBeforeYear
    omega
  have hleap : (isLeap y = true) ↔ (g = 3 ∧ (f ≠ 24 ∨ c = 3)) := by
    unfold isLeap
    simp only [Bool.and_eq_true, Bool.or_eq_true, beq_iff_eq, bne_iff_ne,
      decide_eq_true_eq]
    omega
  have hK2 : K ≤ 364 ∨ (K = 365 ∧ g = 3 ∧ (f ≠ 24 ∨ c = 3)) := by
    by_cases hl : isLeap y = true
    · rw [if_pos hl] at hK
      have := hleap.mp hl
      omega
    · rw [if_neg hl] at hK
      omega
  clear hK
  rw [hdb]
  set N : Nat := 146097 * a + 36524 * c + 1461 * f + 365 * g + K with hN
  have hKle : K ≤ 365 := by omega
  have l400 : N / 146097 = a ∧ N % 146097 = 36524 * c + 1461 * f + 365 * g + K := by
    constructor <;> omega
  rw [l400.1, l400.2]
  by_cases hover : f = 24 ∧ g = 3 ∧ K = 365
  · -- century-boundary leap day: the second-level division overflows
    obtain ⟨rfl, rfl, rfl⟩ := hover
    have hc3 : c = 3 := by omega
    subst hc3
    constructor
    · intro hlt; omega
    · intro _
      have e1 : (36524 * 3 + 1461 * 24 + 365 * 3 + 365) / 36524 = 4 := by norm_num
      have e2 : (36524 * 3 + 1461 * 24 + 365 * 3 + 365) % 36524 = 0 := by norm_num
      rw [e1, e2]
      exact ⟨by omega, by omega⟩
  · have l100 : (36524 * c + 1461 * f + 365 * g + K) / 36524 = c
        ∧ (36524 * c + 1461 * f + 365 * g + K) % 36524 = 1461 * f + 365 * g + K := by
      constructor <;> omega
    rw [l100.1, l100.2]
    have l4 : (1461 * f + 365 * g + K) / 1461 = f
        ∧ (1461 * f + 365 * g + K) % 1461 = 365 * g + K := by
      constructor <;> omega
    rw [l4.1, l4.2]
    constructor
    · intro hlt
      have n1v : (365 * g + K) / 365 = g ∧ (365 * g + K) % 365 = K := by
        constructor <;> omega
      rw [n1v.1, n1v.2]
      refine ⟨by omega, rfl, by omega, ?_⟩
      have hprop : ((g == 3 && (f != 24 || c == 3)) = true) ↔ (g = 3 ∧ (f ≠ 24 ∨ c = 3)) := by
        simp [Bool.and_eq_true, Bool.or_eq_true, beq_iff_eq, bne_iff_ne]
      rcases hcb : (g == 3 && (f != 24 || c == 3)) <;> rcases hil : isLeap y <;>
        simp_all
    · intro h365
      subst h365
      have n1v : (365 * g + 365) / 365 = g + 1 := by omega
      rw [n1v]
      have hg3 : g = 3 := by omega
      subst hg3
      exact ⟨by omega, by omega⟩

end PydyTuesday

namespace PydyTuesday

set_option maxHeartbeats 4000000 in
/-- The month-estimate step of `_ord2ymd` recovers month and day from the
day offset inside the year. -/
theorem monthCase (y K d m : Nat) (leapB : Bool)
    (hm1 : 1 ≤ m) (hm2 : m ≤ 12) (hd1 : 1 ≤ d)
    (hd2 : d ≤ daysInMonthTbl leapB m)
    (hKdef : daysBeforeMonthTbl m + (if 2 < m ∧ leapB = true then 1 else 0) + (d - 1) = K) :
    (if K < daysBeforeMonthTbl ((K + 50) / 32) +
        (if 2 < (K + 50) / 32 ∧ leapB = true then 1 else 0) then
      ({ year := y, month := (K + 50) / 32 - 1,
         day := K - ((daysBeforeMonthTbl ((K + 50) / 32) +
             (if 2 < (K + 50) / 32 ∧ leapB = true then 1 else 0)) -
           (daysInMonthTbl false ((K + 50) / 32 - 1) +
             (if (K + 50) / 32 - 1 = 2 ∧ leapB = true then 1 else 0))) + 1 } : CivilDate)
    else
      { year := y, month := (K + 50) / 32,
        day := K - (daysBeforeMonthTbl ((K + 50) / 32) +
          (if 2 < (K + 50) / 32 ∧ leapB = true then 1 else 0)) + 1 }) =
    { year := y, month := m, day := d } := by
  obtain ⟨mo, hmodef⟩ : ∃ mo, (K + 50) / 32 = mo := ⟨_, rfl⟩
  rw [hmodef]
  rcases leapB with _ | _ <;>
    [simp only [Bool.false_eq_true, and_false, if_false] at hKdef hd2 ⊢;
     simp only [eq_self_iff_true, and_true, if_true] at hKdef hd2 ⊢] <;>
  interval_cases m <;>
    (try norm_num [daysBeforeMonthTbl, daysInMonthTbl] at hKdef) <;>
    (try norm_num [daysBeforeMonthTbl, daysInMonthTbl] at hd2) <;>
    (have hlo : 1 ≤ mo := by omega
     have hhi : mo ≤ 12 := by omega
     interval_cases mo <;>
       (try norm_num [daysBeforeMonthTbl, daysInMonthTbl]) <;>
       first
         | omega
         | (split <;> simp only [CivilDate.mk.injEq, true_and, and_true] <;> omega))

set_option maxHeartbeats 1600000 in
/-- `_ord2ymd` inverts `toordinal` on every valid date. -/
theorem ord2ymd_ymd2ord (y m d : Nat) (hv : validDate y m d = true) :
    ord2ymd (ymd2ord ⟨y, m, d⟩) = ⟨y, m, d⟩ := by
  have hb : 1 ≤ y ∧ y ≤ 9999 ∧ 1 ≤ m ∧ m ≤ 12 ∧ 1 ≤ d
      ∧ d ≤ daysInMonthTbl (isLeap y) m := by
    unfold validDate at hv
    simp only [Bool.and_eq_true, decide_eq_true_eq] at hv
    omega
  obtain ⟨h1, h2, hm1, hm2, hd1, hd2⟩ := hb
  obtain ⟨K, hKdef⟩ : ∃ K,
      daysBeforeMonthTbl m + (if 2 < m ∧ isLeap y = true then 1 else 0) + (d - 1) = K :=
    ⟨_, rfl⟩
  have hord : ymd2ord ⟨y, m, d⟩ = daysBeforeYear y + K + 1 := by
    unfold ymd2ord
    dsimp only
    omega
  have hKb : K < 365 + (if isLeap y then 1 else 0) := by
    rcases hli : isLeap y with _ | _ <;> rw [hli] at hd2 <;> interval_cases m <;>
      simp [hli, daysInMonthTbl, daysBeforeMonthTbl] at hd2 hKdef ⊢ <;> omega
  rw [hord]
  unfold ord2ymd
  dsimp only
  have hn0 : daysBeforeYear y + K + 1 - 1 = daysBeforeYear y + K := by omega
  rw [hn0]
  obtain ⟨mainc, specc⟩ := yearDecomp y K h1 h2 hKb
  by_cases hK365 : K < 365
  · obtain ⟨hyear, hrem, hnotspec, hleapB⟩ := mainc hK365
    rw [if_neg hnotspec]
    rw [hyear, hrem, hleapB]
    exact monthCase y K d m (isLeap y) hm1 hm2 hd1 hd2 hKdef
  · have hleapT : isLeap y = true := by
      rcases hli : isLeap y with _ | _
      · rw [hli] at hKb
        simp only [Bool.false_eq_true, if_false] at hKb
        omega
      · rfl
    have hK365' : K = 365 := by
      rw [hleapT] at hKb
      simp only [if_true] at hKb
      omega
    obtain ⟨hyear1, hspec⟩ := specc hK365'
    rw [if_pos hspec, hyear1]
    have hm12 : m = 12 ∧ d = 31 := by
      rw [hleapT] at hKdef hd2
      interval_cases m <;>
        (try norm_num [daysBeforeMonthTbl, daysInMonthTbl] at hKdef hd2) <;> omega
    obtain ⟨rfl, rfl⟩ := hm12
    simp only [CivilDate.mk.injEq]
    exact ⟨by omega, trivial, trivial⟩


/-- Every entry of a successful raw lookup carries the `"{year}/{date}"`
path, a pattern-matching date, and a date string taken verbatim from the
environment. -/
theorem ttDatasetsRaw_sources (env : DatasetsEnv) (year : String) (l : List Entry) (c : Nat)
    (h : ttDatasetsRaw env year = .ok (l, c)) :
    ∀ e ∈ l, e.path = year ++ "/" ++ e.date ∧ isDatePat e.date = true
      ∧ e.date ∈ sourceDateStrings env := by
  intro e he
  rcases ttDatasetsRaw_ok_cases env year l c h with ⟨c0, hs⟩ | ⟨items, hit, rfl⟩
  · rcases tier1Stage_ok_cases env year l c0 hs with
      ⟨rows, hm, rfl⟩ | ⟨rows2, hm2, rfl⟩ | rfl
    · obtain ⟨p1, p2, p3⟩ := mem_extractRows year rows e he
      refine ⟨p1, p2, ?_⟩
      unfold sourceDateStrings htmlCandidates
      rw [hm]
      exact List.mem_append_left _ (List.mem_append_left _ p3)
    · obtain ⟨p1, p2, p3⟩ := mem_extractRows year rows2 e he
      refine ⟨p1, p2, ?_⟩
      unfold sourceDateStrings htmlCandidates
      rw [hm2]
      exact List.mem_append_left _ (List.mem_append_right _ p3)
    · exact absurd he (List.not_mem_nil e)
  · obtain ⟨p1, p2, _, p4⟩ := mem_tier2Entries year items e he
    obtain ⟨st, ha, _⟩ := apiList_eq_some env.api items hit
    refine ⟨p1, p2, ?_⟩
    unfold sourceDateStrings apiNames
    rw [ha]
    exact List.mem_append_right _ p4

/-- Membership after one dict assignment: the assigned pair or a surviving
old pair. -/
theorem pyDictInsert_mem {α : Type} (l : List (String × α)) (k : String) (v : α)
    (kv : String × α) (h : kv ∈ pyDictInsert l k v) : kv = (k, v) ∨ kv ∈ l := by
  unfold pyDictInsert at h
  split at h
  · obtain ⟨p, hp, hpe⟩ := List.mem_map.mp h
    by_cases hk : p.1 = k
    · rw [if_pos (show (p.1 == k) = true by simp [hk])] at hpe
      exact Or.inl hpe.symm
    · rw [if_neg (show ¬(p.1 == k) = true by simp [hk])] at hpe
      exact Or.inr (hpe ▸ hp)
  · rcases List.mem_append.mp h with h | h
    · exact Or.inr h
    · exact Or.inl (List.mem_singleton.mp h)

/-- The key set after one dict assignment: the old keys plus the assigned
key. -/
theorem pyDictInsert_keys {α : Type} (l : List (String × α)) (k : String) (v : α)
    (a : String) :
    a ∈ (pyDictInsert l k v).map Prod.fst ↔ a = k ∨ a ∈ l.map Prod.fst := by
  unfold pyDictInsert
  split
  · next hany =>
    rw [List.map_map]
    constructor
    · intro h
      obtain ⟨p, hp, hpe⟩ := List.mem_map.mp h
      by_cases hk : p.1 = k
      · rw [Function.comp_apply, if_pos (show (p.1 == k) = true by simp [hk])] at hpe
        exact Or.inl hpe.symm
      · rw [Function.comp_apply, if_neg (show ¬(p.1 == k) = true by simp [hk])] at hpe
        exact Or.inr (List.mem_map.mpr ⟨p, hp, hpe⟩)
    · intro h
      rcases h with rfl | h
      · rw [List.any_eq_true] at hany
        obtain ⟨p, hp, hpk⟩ := hany
        refine List.mem_map.mpr ⟨p, hp, ?_⟩
        rw [Function.comp_apply, if_pos hpk]
      · obtain ⟨p, hp, hpe⟩ := List.mem_map.mp h
        refine List.mem_map.mpr ⟨p, hp, ?_⟩
        by_cases hk : p.1 = k
        · rw [Function.comp_apply, if_pos (show (p.1 == k) = true by simp [hk])]
          rw [← hpe, hk]
        · rw [Function.comp_apply, if_neg (show ¬(p.1 == k) = true by simp [hk])]
          exact hpe
  · simp only [List.map_append, List.mem_append, List.map_cons, List.map_nil,
      List.mem_singleton]
    constructor
    · intro h
      rcases h with h | h
      · exact Or.inr h
      · exact Or.inl h
    · intro h
      rcases h with h | h
      · exact Or.inr h
      · exact Or.inl h

/-- Keys of the `**data` spread: the base keys plus the data keys. -/
theorem foldInsert_keys (data : List (String × DataFrame)) :
    ∀ (l : List (String × PyVal)) (a : String),
      a ∈ (data.foldl (fun acc p => pyDictInsert acc p.1 (PyVal.df p.2)) l).map Prod.fst
      ↔ a ∈ l.map Prod.fst ∨ a ∈ data.map Prod.fst := by
  induction data with
  | nil => intro l a; simp
  | cons p rest ih =>
    intro l a
    simp only [List.foldl_cons, List.map_cons, List.mem_cons]
    rw [ih, pyDictInsert_keys]
    tauto

/-- A base pair whose key no data pair shadows survives the spread. -/
theorem foldInsert_preserve (data : List (String × DataFrame)) :
    ∀ (l : List (String × PyVal)) (k : String) (v : PyVal),
      (k, v) ∈ l → k ∉ data.map Prod.fst →
      (k, v) ∈ data.foldl (fun acc p => pyDictInsert acc p.1 (PyVal.df p.2)) l := by
  induction data with
  | nil => intro l k v h _; exact h
  | cons p rest ih =>
    intro l k v h hk
    simp only [List.map_cons, List.mem_cons] at hk
    push_neg at hk
    refine ih _ k v ?_ hk.2
    dsimp only
    unfold pyDictInsert
    split
    · refine List.mem_map.mpr ⟨(k, v), h, ?_⟩
      rw [if_neg (show ¬((k, v).1 == p.1) = true by simp [hk.1])]
    · exact List.mem_append_left _ h

/-- The download loop only ever appends to the notice log. -/
theorem dlLoop_msgs_mono (env : FetchEnv) :
    ∀ (todo : List FileRef) (acc : List (String × DataFrame)) (ms : List Msg) (m : Msg),
      m ∈ ms → m ∈ (dlLoop env todo acc ms).msgs := by
  intro todo
  induction todo with
  | nil => intro acc ms m hm; exact hm
  | cons f rest ih =>
    intro acc ms m hm
    unfold dlLoop
    rcases hf : env.fetch f.download_url with _ | ⟨st, content⟩ <;> dsimp only
    · exact List.mem_append_left _ (List.mem_append_left _ hm)
    · by_cases h200 : st ≠ 200
      · rw [if_pos h200]
        exact ih _ _ m (List.mem_append_left _ (List.mem_append_left _ hm))
      · rw [if_neg h200]
        rcases hfmt : formatOfBatch (pyLower f.name) with _ | fmt <;> dsimp only
        · exact ih _ _ m (List.mem_append_left _ (List.mem_append_left _ hm))
        · rcases hp : env.parse fmt content with df | _ | _ <;> dsimp only <;>
            exact ih _ _ m (List.mem_append_left _ (List.mem_append_left _ hm))

/-- A selected file that downloads with status 200 but has an unsupported
extension leaves its "unsupported" notice in the loop's log, provided no
file of the batch hits a network error (which would abort the loop). -/
theorem dlLoop_unsupported (env : FetchEnv) :
    ∀ (todo : List FileRef) (acc : List (String × DataFrame)) (ms : List Msg)
      (g : FileRef) (content : String),
      g ∈ todo → (∀ f ∈ todo, env.fetch f.download_url ≠ .netErr) →
      env.fetch g.download_url = .resp 200 content →
      formatOfBatch (pyLower g.name) = none →
      Msg.unsupportedFormat g.name ∈ (dlLoop env todo acc ms).msgs := by
  intro todo
  induction todo with
  | nil => intro acc ms g content hg; exact absurd hg (List.not_mem_nil g)
  | cons f rest ih =>
    intro acc ms g content hg hne hresp hfmt
    unfold dlLoop
    rcases hf : env.fetch f.download_url with _ | ⟨st, fcontent⟩ <;> dsimp only
    · exact absurd hf (hne f (List.mem_cons_self f rest))
    · rcases List.mem_cons.mp hg with rfl | hgrest
      · obtain ⟨hst, hcontent⟩ : st = 200 ∧ fcontent = content := by
          rw [hf] at hresp
          exact ⟨(Transp.resp.inj hresp).1, (Transp.resp.inj hresp).2⟩
        subst hst
        rw [if_neg (by simp)]
        rw [hfmt]
        dsimp only
        exact dlLoop_msgs_mono env rest acc _ _
          (List.mem_append_right _ (List.mem_singleton.mpr rfl))
      · have hne2 : ∀ f2 ∈ rest, env.fetch f2.download_url ≠ .netErr :=
          fun f2 hf2 => hne f2 (List.mem_cons_of_mem f hf2)
        by_cases h200 : st ≠ 200
        · rw [if_pos h200]
          exact ih _ _ g content hgrest hne2 hresp hfmt
        · rw [if_neg h200]
          rcases hfmt2 : formatOfBatch (pyLower f.name) with _ | fmt <;> dsimp only
          · exact ih _ _ g content hgrest hne2 hresp hfmt
          · rcases hp : env.parse fmt fcontent with df | _ | _ <;> dsimp only <;>
              exact ih _ _ g content hgrest hne2 hresp hfmt

/-- Every key of the loop's result comes from the accumulator or from a
selected file whose extension the batch path supports. -/
theorem dlLoop_keys (env : FetchEnv) :
    ∀ (todo : List FileRef) (acc : List (String × DataFrame)) (ms : List Msg)
      (kv : String × DataFrame),
      kv ∈ (dlLoop env todo acc ms).result →
      kv ∈ acc ∨ ∃ f, f ∈ todo ∧ (∃ fmt, formatOfBatch (pyLower f.name) = some fmt)
        ∧ kv.1 = splitextStem f.name := by
  intro todo
  induction todo with
  | nil => intro acc ms kv hkv; exact Or.inl hkv
  | cons f rest ih =>
    intro acc ms kv hkv
    unfold dlLoop at hkv
    rcases hf : env.fetch f.download_url with _ | ⟨st, content⟩ <;> rw [hf] at hkv <;>
      dsimp only at hkv
    · exact absurd hkv (List.not_mem_nil kv)
    · by_cases h200 : st ≠ 200
      · rw [if_pos h200] at hkv
        rcases ih _ _ kv hkv with h | ⟨f2, hf2, hfmt2, hk⟩
        · exact Or.inl h
        · exact Or.inr ⟨f2, List.mem_cons_of_mem f hf2, hfmt2, hk⟩
      · rw [if_neg h200] at hkv
        rcases hfmt : formatOfBatch (pyLower f.name) with _ | fmt <;> rw [hfmt] at hkv <;>
          dsimp only at hkv
        · rcases ih _ _ kv hkv with h | ⟨f2, hf2, hfmt2, hk⟩
          · exact Or.inl h
          · exact Or.inr ⟨f2, List.mem_cons_of_mem f hf2, hfmt2, hk⟩
        · rcases hp : env.parse fmt content with df | _ | _ <;> rw [hp] at hkv <;>
            dsimp only at hkv
          · rcases ih _ _ kv hkv with h | ⟨f2, hf2, hfmt2, hk⟩
            · rcases pyDictInsert_mem acc (splitextStem f.name) df kv h with h | h
              · obtain rfl : kv = (splitextStem f.name, df) := h
                exact Or.inr ⟨f, List.mem_cons_self f rest, ⟨fmt, hfmt⟩, rfl⟩
              · exact Or.inl h
            · exact Or.inr ⟨f2, List.mem_cons_of_mem f hf2, hfmt2, hk⟩
          · rcases ih _ _ kv hkv with h | ⟨f2, hf2, hfmt2, hk⟩
            · exact Or.inl h
            · exact Or.inr ⟨f2, List.mem_cons_of_mem f hf2, hfmt2, hk⟩
          · rcases ih _ _ kv hkv with h | ⟨f2, hf2, hfmt2, hk⟩
            · exact Or.inl h
            · exact Or.inr ⟨f2, List.mem_cons_of_mem f hf2, hfmt2, hk⟩

/-- With a known (non-`None`) budget, `tt_load_gh` never raises: every
branch returns a dictionary. -/
theorem ttLoadGh_isOk (env : LoadGhEnv) (arg : GhArg) (r : Nat)
    (h : env.ds.rateRemaining = some r) : isOkE (ttLoadGh env arg) = true := by
  unfold ttLoadGh
  rw [h]
  dsimp only
  by_cases h5 : r < 5
  · rw [if_pos h5]; rfl
  · rw [if_neg h5]
    rcases arg with s | ⟨y, w⟩ <;> dsimp only
    · rcases hf : env.filesApi with _ | ⟨st, items⟩ <;> dsimp only
      · rfl
      · by_cases h200 : st ≠ 200
        · rw [if_pos h200]; rfl
        · rw [if_neg h200]
          rcases hr : readmeFetch env with u | content <;> dsimp only <;> rfl
    · by_cases hemp : (ttDatasets env.ds y).result.isEmpty = true
      · rw [if_pos hemp]; rfl
      · rw [if_neg hemp]
        by_cases hw : w < 1 ∨ ((ttDatasets env.ds y).result.length : Int) < w
        · rw [if_pos hw]; rfl
        · rw [if_neg hw]
          dsimp only
          rcases hf : env.filesApi with _ | ⟨st, items⟩ <;> dsimp only
          · rfl
          · by_cases h200 : st ≠ 200
            · rw [if_pos h200]; rfl
            · rw [if_neg h200]
              rcases hr : readmeFetch env with u | content <;> dsimp only <;> rfl

/-- With a known budget, `tt_load` never raises either: the only exception
it can propagate is the one `tt_load_gh` raises. -/
theorem ttLoad_isOk (env : LoadEnv) (arg : GhArg) (sel : FilesSel) (r : Nat)
    (h : env.gh.ds.rateRemaining = some r) : isOkE (ttLoad env arg sel) = true := by
  have hok := ttLoadGh_isOk env.gh arg r h
  unfold ttLoad
  rcases hg : ttLoadGh env.gh arg with e | o
  · rw [hg] at hok; exact absurd hok (by simp [isOkE])
  · dsimp only
    rcases o.ret with _ | meta <;> rfl

/-- A parsed date is a valid date (`strptime` range checks). -/
theorem parseISO_valid (s : String) (c : CivilDate) (h : parseISO s = some c) :
    validDate c.year c.month c.day = true := by
  unfold parseISO at h
  split at h
  · split at h
    · dsimp only at h
      split at h
      · obtain rfl := Option.some.inj h
        assumption
      · exact absurd h (by simp)
    · exact absurd h (by simp)
  · exact absurd h (by simp)

/-- Every valid date other than the epoch 0001-01-01 has ordinal at
least 2. -/
theorem ymd2ord_ge_two (y m d : Nat) (hv : validDate y m d = true)
    (hne : ¬(y = 1 ∧ m = 1 ∧ d = 1)) : 2 ≤ ymd2ord ⟨y, m, d⟩ := by
  have hb : 1 ≤ y ∧ 1 ≤ m ∧ m ≤ 12 ∧ 1 ≤ d := by
    unfold validDate at hv
    simp only [Bool.and_eq_true, decide_eq_true_eq] at hv
    omega
  obtain ⟨h1, hm1, hm2, hd1⟩ := hb
  unfold ymd2ord daysBeforeYear
  dsimp only
  obtain ⟨T, hT⟩ : ∃ T, (if 2 < m ∧ isLeap y = true then 1 else 0) = T := ⟨_, rfl⟩
  rw [hT]
  rcases Nat.lt_or_ge y 2 with hy | hy
  · have hy1 : y = 1 := by omega
    subst hy1
    interval_cases m <;> simp only [daysBeforeMonthTbl] <;> omega
  · obtain ⟨B, hB⟩ : ∃ B, daysBeforeMonthTbl m = B := ⟨_, rfl⟩
    rw [hB]
    omega

/-- On any date of ordinal at least 2 the Tuesday step-back stays at or
above day 1, so `last_tuesday`'s subtraction does not overflow. -/
theorem lastTuesdayCore_ok (c : CivilDate) (h : 2 ≤ ymd2ord c) :
    lastTuesdayCore c
      = .ok (formatISO (ord2ymd (lastTuesdayOrd (ymd2ord c)).toNat)) := by
  have h2 : ¬ lastTuesdayOrd (ymd2ord c) < 1 := by
    have hc : (2 : Int) ≤ (ymd2ord c : Int) := by exact_mod_cast h
    unfold lastTuesdayOrd pyWeekday
    omega
  unfold lastTuesdayCore
  rw [if_neg h2]

/-- `last_tuesday` returns normally on every string `strptime` accepts
whose date is not the epoch 0001-01-01. -/
theorem lastTuesdayPy_str_isOk (s : String) (y m d : Nat)
    (h : parseISO s = some ⟨y, m, d⟩) (hne : ¬(y = 1 ∧ m = 1 ∧ d = 1)) :
    isOkE (lastTuesdayPy (.str s)) = true := by
  have hv : validDate y m d = true := parseISO_valid s ⟨y, m, d⟩ h
  have h2 : 2 ≤ ymd2ord ⟨y, m, d⟩ := ymd2ord_ge_two y m d hv hne
  simp only [lastTuesdayPy, h]
  rw [lastTuesdayCore_ok _ h2]
  rfl

/-- When the environment's parses raise nothing beyond `ParserError`,
`tt_download_file` returns normally. -/
theorem ttDownloadFile_isOk (env : FetchEnv) (tt : Option TTMeta) (ident : FileIdent)
    (h : ∀ fmt content, env.parse fmt content ≠ .otherError) :
    isOkE (ttDownloadFile env tt ident) = true := by
  unfold ttDownloadFile
  rcases tt with _ | meta
  · rfl
  · dsimp only
    rcases hl : lookupFile meta.files ident with m | fi <;> dsimp only
    · rfl
    · rcases hf : env.fetch fi.download_url with _ | ⟨st, content⟩ <;> dsimp only
      · rfl
      · by_cases hst : 400 ≤ st
        · rw [if_pos hst]; rfl
        · rw [if_neg hst]
          rcases hfmt : formatOfSingle (pyLower fi.name) with _ | fmt <;> dsimp only
          · rfl
          · rcases hp : env.parse fmt content with df | _ | _ <;> dsimp only
            · rfl
            · rfl
            · exact absurd hp (h fmt content)


/-! ## The claims -/

/-- Claim C1 (corrected): for every valid reference input other than the
epoch 0001-01-01 — an ISO `YYYY-MM-DD` string (whose `strptime` result the
`.dt` path shares) or a date value — `last_tuesday` returns the reference
date minus `(weekday - 1) % 7` days formatted with `strftime("%Y-%m-%d")`;
the result always falls on a Tuesday (weekday index 1), and when the
reference is itself a Tuesday the result equals the reference.  At
0001-01-01 itself (a Monday) the claim fails: the stepped-back date would
precede `date.min`, so the subtraction of line 82 raises `OverflowError`. -/
theorem claim_C1_amended (y m d : Nat) (s : String)
    (hv : validDate y m d = true)
    (hs : parseISO s = some ⟨y, m, d⟩)
    (hne : ¬(y = 1 ∧ m = 1 ∧ d = 1)) :
    lastTuesdayPy (.str s) = lastTuesdayPy (.dt ⟨y, m, d⟩)
    ∧ lastTuesdayPy (.dt ⟨y, m, d⟩)
        = .ok (formatISO (ord2ymd (lastTuesdayOrd (ymd2ord ⟨y, m, d⟩)).toNat))
    ∧ lastTuesdayOrd (ymd2ord ⟨y, m, d⟩)
        = (ymd2ord ⟨y, m, d⟩ : Int) - ((pyWeekday (ymd2ord ⟨y, m, d⟩) - 1) % 7)
    ∧ pyWeekday (lastTuesdayOrd (ymd2ord ⟨y, m, d⟩)) = 1
    ∧ (pyWeekday (ymd2ord ⟨y, m, d⟩) = 1 →
        lastTuesdayPy (.dt ⟨y, m, d⟩) = .ok (formatISO ⟨y, m, d⟩)) := by
  have h2 : 2 ≤ ymd2ord ⟨y, m, d⟩ := ymd2ord_ge_two y m d hv hne
  refine ⟨by simp only [lastTuesdayPy, hs], ?_, rfl, ?_, ?_⟩
  · show lastTuesdayCore ⟨y, m, d⟩ = _
    exact lastTuesdayCore_ok _ h2
  · unfold lastTuesdayOrd pyWeekday
    omega
  · intro htue
    have htn : (lastTuesdayOrd (ymd2ord ⟨y, m, d⟩)).toNat = ymd2ord ⟨y, m, d⟩ := by
      unfold lastTuesdayOrd pyWeekday at *
      omega
    show lastTuesdayCore ⟨y, m, d⟩ = .ok (formatISO ⟨y, m, d⟩)
    rw [lastTuesdayCore_ok _ h2, htn, ord2ymd_ymd2ord y m d hv]

theorem claim_C1_counterexample :
    validDate 1 1 1 = true
    ∧ parseISO "0001-01-01" = some ⟨1, 1, 1⟩
    ∧ pyWeekday (ymd2ord ⟨1, 1, 1⟩) = 0
    ∧ lastTuesdayPy (.dt ⟨1, 1, 1⟩) = .error .overflowError
    ∧ lastTuesdayPy (.str "0001-01-01") = .error .overflowError :=
  ⟨by decide, by decide, by decide, by decide, by decide⟩

theorem claim_C1_witness :
    validDate 2025 3 11 = true
    ∧ parseISO "2025-03-11" = some ⟨2025, 3, 11⟩
    ∧ pyWeekday (ymd2ord ⟨2025, 3, 11⟩) = 1
    ∧ lastTuesdayPy (.dt ⟨2025, 3, 11⟩) = .ok (formatISO ⟨2025, 3, 11⟩)
    ∧ lastTuesdayPy (.str "2025-03-12") = .ok "2025-03-11"
    ∧ lastTuesdayPy (.str "2025-03-10") = .ok "2025-03-04" :=
  ⟨by decide, by decide, by decide,
   (claim_C1_amended 2025 3 11 "2025-03-11" (by decide) (by decide) (by decide)).2.2.2.2
     (by decide),
   by decide, by decide⟩

/-- Claim C2 (corrected): the output of `tt_datasets` is indeed always
sorted ascending by date, but the code never removes duplicates: a Tier-1
table that repeats a date yields two entries with the same date.  Amended:
the output is sorted ascending by date, and it has no duplicate dates
whenever the dates of the raw (pre-sort) extraction are pairwise distinct —
which the code does not itself enforce. -/
theorem claim_C2_amended (env : DatasetsEnv) (year : String) :
    List.Sorted dateLe (ttDatasets env year).result
    ∧ (((ttDatasetsRawList env year).map Entry.date).Nodup →
        ((ttDatasets env year).result.map Entry.date).Nodup) := by
  rcases ttDatasets_result_cases env year with h | ⟨l, c, hraw, h⟩
  · rw [h]
    exact ⟨List.sorted_nil, fun _ => List.nodup_nil⟩
  · constructor
    · rw [h]; exact List.sorted_insertionSort dateLe l
    · intro hnd
      rw [h]
      have hperm : List.Perm ((List.insertionSort dateLe l).map Entry.date)
          (l.map Entry.date) :=
        (List.perm_insertionSort dateLe l).map Entry.date
      rw [List.Perm.nodup_iff hperm]
      rwa [ttDatasetsRawList, hraw] at hnd

theorem claim_C2_counterexample :
    ((ttDatasets c2env "2025").result.map Entry.date) = ["2025-01-07", "2025-01-07"]
    ∧ ¬ ((ttDatasets c2env "2025").result.map Entry.date).Nodup := by
  constructor
  · decide
  · decide

theorem claim_C2_witness :
    ((ttDatasetsRawList c2aenv "2025").map Entry.date).Nodup
    ∧ List.Sorted dateLe (ttDatasets c2aenv "2025").result
    ∧ ((ttDatasets c2aenv "2025").result.map Entry.date).Nodup :=
  ⟨by decide, (claim_C2_amended c2aenv "2025").1,
    (claim_C2_amended c2aenv "2025").2 (by decide)⟩

/-- Claim C3 (corrected): it is not true that no public operation raises.
`last_tuesday` raises `ValueError` on an unparseable date string,
`TypeError` on a non-date argument (lines 71-79) and an uncaught
`OverflowError` at the reference 0001-01-01; `tt_load_gh` (hence `tt_load`)
raises `TypeError` when the rate-limit budget is unknown, because line 251
compares `None < 5`; and `tt_download_file` propagates every pandas parse
exception other than `pd.errors.ParserError` (lines 385-392 catch only
`RequestException` and `ParserError`).  Amended: apart from those cases the
public operations return empty/neutral values instead of raising —
`tt_load_gh` and `tt_load` return normally whenever the budget is known,
`last_tuesday` returns normally on every `strptime`-accepted string other
than the epoch, and `tt_download_file` returns normally whenever the
parses raise nothing beyond `ParserError` (`tt_datasets` and `tt_download`
are total by construction of the model). -/
theorem claim_C3_amended (envG : LoadGhEnv) (envL : LoadEnv) (envF : FetchEnv)
    (arg arg2 : GhArg) (sel : FilesSel) (tt : Option TTMeta) (ident : FileIdent)
    (s : String) (y m d : Nat) (r r2 : Nat)
    (h1 : envG.ds.rateRemaining = some r)
    (h2 : envL.gh.ds.rateRemaining = some r2)
    (h3 : parseISO s = some ⟨y, m, d⟩)
    (h4 : ¬(y = 1 ∧ m = 1 ∧ d = 1))
    (h5 : ∀ fmt content, envF.parse fmt content ≠ .otherError) :
    isOkE (ttLoadGh envG arg) = true
    ∧ isOkE (ttLoad envL arg2 sel) = true
    ∧ isOkE (lastTuesdayPy (.str s)) = true
    ∧ isOkE (ttDownloadFile envF tt ident) = true :=
  ⟨ttLoadGh_isOk envG arg r h1, ttLoad_isOk envL arg2 sel r2 h2,
   lastTuesdayPy_str_isOk s y m d h3 h4, ttDownloadFile_isOk envF tt ident h5⟩

theorem claim_C3_counterexample :
    lastTuesdayPy (.str "not-a-date") = .error .valueError
    ∧ lastTuesdayPy .other = .error .typeError
    ∧ ttLoadGh c3envRaise (.date "2025-01-07") = .error .typeError
    ∧ lastTuesdayPy (.dt ⟨1, 1, 1⟩) = .error .overflowError
    ∧ ttDownloadFile c8oenv (some c8meta) (.byName "gone.csv") = .error .pandasError :=
  ⟨by decide, rfl, rfl, by decide, by decide⟩

theorem claim_C3_witness :
    isOkE (ttLoadGh c3envG (.date "2025-01-07")) = true
    ∧ isOkE (ttLoad c3envL (.date "2025-01-07") .all) = true
    ∧ isOkE (lastTuesdayPy (.str "2025-01-07")) = true
    ∧ isOkE (ttDownloadFile c8env (some c8meta) (.byName "bad.csv")) = true :=
  claim_C3_amended c3envG c3envL c8env (.date "2025-01-07") (.date "2025-01-07") .all
    (some c8meta) (.byName "bad.csv") "2025-01-07" 2025 1 7 10 10 rfl rfl
    (by decide) (by decide) (fun _ _ h => nomatch h)

/-- Claim C4 (confirmed): when the remaining API budget is reported as
exactly 0, `tt_datasets` returns the empty list, prints the exhaustion
notice, and performs zero requests to the listing endpoints. -/
theorem claim_C4_budget_guard (env : DatasetsEnv) (year : String)
    (h : env.rateRemaining = some 0) :
    (ttDatasets env year).result = []
    ∧ Msg.exhausted ∈ (ttDatasets env year).msgs
    ∧ (ttDatasets env year).lookupCalls = 0 := by
  simp [ttDatasets, h]

theorem claim_C4_witness :
    (ttDatasets c4env "2025").result = []
    ∧ Msg.exhausted ∈ (ttDatasets c4env "2025").msgs
    ∧ (ttDatasets c4env "2025").lookupCalls = 0 :=
  claim_C4_budget_guard c4env "2025" rfl

/-- Claim C5 (confirmed): whenever Tier 1 yields zero valid rows (page
missing, non-200 on both branches, or no row with a matching date cell and
at least 3 cells) and the year's directory listing succeeds, `tt_datasets`
returns exactly the sorted Tier-2 entries: one `"Unknown"`-titled
`ReleaseIdentifier` per directory entry whose name matches the date
pattern. -/
theorem claim_C5_fallback (env : DatasetsEnv) (year : String) (items : List ApiItem)
    (h0 : env.rateRemaining ≠ some 0)
    (h1 : tier1EmptyB env year = true)
    (h2 : apiList env.api = some items) :
    (ttDatasets env year).result = List.insertionSort dateLe (tier2Entries year items)
    ∧ ∀ it ∈ items, it.type = "dir" → isDatePat it.name = true →
        (⟨it.name, "Unknown", year ++ "/" ++ it.name⟩ : Entry) ∈ (ttDatasets env year).result := by
  obtain ⟨c, hraw⟩ := ttDatasetsRaw_tier2 env year items h1 h2
  have hres : (ttDatasets env year).result =
      List.insertionSort dateLe (tier2Entries year items) := by
    unfold ttDatasets
    rw [hraw]
    rcases hrr : env.rateRemaining with _ | n
    · rfl
    · rcases n with _ | n
      · exact absurd hrr h0
      · rfl
  refine ⟨hres, fun it hit htype hpat => ?_⟩
  rw [hres, List.mem_insertionSort]
  unfold tier2Entries
  refine List.mem_filterMap.mpr ⟨it, List.mem_filter.mpr ⟨hit, by simp [htype]⟩, ?_⟩
  simp [hpat]

theorem claim_C5_witness :
    (ttDatasets c5env "2025").result =
      List.insertionSort dateLe (tier2Entries "2025" c5items)
    ∧ (⟨"2025-01-07", "Unknown", "2025/2025-01-07"⟩ : Entry) ∈ (ttDatasets c5env "2025").result :=
  ⟨(claim_C5_fallback c5env "2025" c5items (by decide) (by decide) (by decide)).1,
   (claim_C5_fallback c5env "2025" c5items (by decide) (by decide) (by decide)).2
     ⟨"2025-01-07", "dir", "", ""⟩ (by decide) (by decide) (by decide)⟩

/-- Claim C6 (confirmed): with a known budget, `tt_load_gh` on a week
number out of range — below 1 or above the length of the year's dataset
list — returns the empty dictionary with an error notice and does not
raise.  (The unknown-budget `TypeError` is claim C3's concern.) -/
theorem claim_C6_week_range (env : LoadGhEnv) (y : String) (w : Int) (r : Nat)
    (hr : env.ds.rateRemaining = some r)
    (hw : w < 1 ∨ ((ttDatasets env.ds y).result.length : Int) < w) :
    ghRet (ttLoadGh env (.yearWeek y w)) = some none
    ∧ ghMsgs (ttLoadGh env (.yearWeek y w)) ≠ [] := by
  unfold ttLoadGh
  rw [hr]
  dsimp only
  by_cases h5 : r < 5
  · rw [if_pos h5]
    exact ⟨rfl, by simp [ghMsgs]⟩
  · rw [if_neg h5]
    by_cases hemp : (ttDatasets env.ds y).result.isEmpty = true
    · rw [if_pos hemp]
      exact ⟨rfl, by simp [ghMsgs]⟩
    · rw [if_neg hemp]
      rw [if_pos hw]
      exact ⟨rfl, by simp [ghMsgs]⟩

theorem claim_C6_witness :
    ghRet (ttLoadGh c6env (.yearWeek "2025" 0)) = some none
    ∧ ghMsgs (ttLoadGh c6env (.yearWeek "2025" 0)) ≠ [] :=
  claim_C6_week_range c6env "2025" 0 10 rfl (Or.inl (by decide))

/-- Claim C7 (confirmed): a file whose (lower-cased) name ends in no
supported extension yields, without raising, the empty frame and the
distinguishable "unsupported format" notice on the single-file path (the
dispatch happens before any parse, so no parse exception can arise), and on
the batch path
(whose supported set lacks `.parquet`) the notice is emitted and the file
contributes no key to the result mapping: every key comes from a
supported-format file.  The download must have reached the dispatch (the
fetch succeeded), and on the batch path no selected file may hit a network
error, which would abort the whole loop. -/
theorem claim_C7_unsupported (env : FetchEnv) (meta : TTMeta) (ident : FileIdent)
    (fi : FileRef) (st : Nat) (content : String) (sel : FilesSel) (g : FileRef)
    (content2 : String)
    (hl : lookupFile meta.files ident = .ok fi)
    (hf : env.fetch fi.download_url = .resp st content) (hst : st < 400)
    (hu : formatOfSingle (pyLower fi.name) = none)
    (hg : g ∈ (selectFiles meta.files sel).1)
    (hne : ∀ f ∈ (selectFiles meta.files sel).1, env.fetch f.download_url ≠ .netErr)
    (hgf : env.fetch g.download_url = .resp 200 content2)
    (hgu : formatOfBatch (pyLower g.name) = none) :
    ttDownloadFile env (some meta) ident
      = .ok ⟨emptyDF, [Msg.downloading fi.name,
          Msg.unsupportedFormat (pyLower fi.name)]⟩
    ∧ Msg.unsupportedFormat g.name ∈ (ttDownload env (some meta) sel).msgs
    ∧ ∀ kv ∈ (ttDownload env (some meta) sel).result,
        ∃ f, f ∈ (selectFiles meta.files sel).1
          ∧ (∃ fmt, formatOfBatch (pyLower f.name) = some fmt)
          ∧ kv.1 = splitextStem f.name := by
  have hsingle : ttDownloadFile env (some meta) ident =
      .ok ⟨emptyDF, [Msg.downloading fi.name, Msg.unsupportedFormat (pyLower fi.name)]⟩ := by
    unfold ttDownloadFile
    dsimp only
    rw [hl]
    dsimp only
    rw [hf]
    dsimp only
    rw [if_neg (by omega)]
    rw [hu]
  refine ⟨hsingle, ?_, ?_⟩
  · unfold ttDownload
    dsimp only
    exact dlLoop_unsupported env _ _ _ g content2 hg hne hgf hgu
  · intro kv hkv
    unfold ttDownload at hkv
    dsimp only at hkv
    rcases dlLoop_keys env _ _ _ kv hkv with h | h
    · exact absurd h (List.not_mem_nil kv)
    · exact h

theorem claim_C7_witness :
    ttDownloadFile c7env (some c7meta) (.byName "data.xyz")
      = .ok ⟨emptyDF, [Msg.downloading "data.xyz",
          Msg.unsupportedFormat (pyLower "data.xyz")]⟩
    ∧ Msg.unsupportedFormat "data.xyz" ∈ (ttDownload c7env (some c7meta) .all).msgs :=
  ⟨(claim_C7_unsupported c7env c7meta (.byName "data.xyz") ⟨"data.xyz", "u1", "p1"⟩
      200 "blob" .all ⟨"data.xyz", "u1", "p1"⟩ "blob"
      (by decide) (by decide) (by decide) (by decide) (by decide) (by decide)
      (by decide) (by decide)).1,
   (claim_C7_unsupported c7env c7meta (.byName "data.xyz") ⟨"data.xyz", "u1", "p1"⟩
      200 "blob" .all ⟨"data.xyz", "u1", "p1"⟩ "blob"
      (by decide) (by decide) (by decide) (by decide) (by decide) (by decide)
      (by decide) (by decide)).2.1⟩

/-- Claim C8 (corrected): on the single-file path a transport failure
(network error or status ≥ 400) yields the empty frame with the download
notice, and a `pd.errors.ParserError` from the parse yields the empty frame
with the distinct parse notice — neither propagates; but it is NOT true
that every parse failure is handled this way: a pandas exception other than
`ParserError` (the `ValueError` of `read_json` on malformed JSON,
`EmptyDataError` on empty input, `read_excel` failures) escapes
`tt_download_file`, whose handlers of lines 385-392 catch only
`RequestException` and `ParserError`. -/
theorem claim_C8_failures (env : FetchEnv) (meta : TTMeta) (ident : FileIdent)
    (fi : FileRef) (hl : lookupFile meta.files ident = .ok fi) :
    (env.fetch fi.download_url = .netErr →
      ttDownloadFile env (some meta) ident
        = .ok ⟨emptyDF, [Msg.downloading fi.name, Msg.downloadError]⟩)
    ∧ (∀ st content, env.fetch fi.download_url = .resp st content → 400 ≤ st →
      ttDownloadFile env (some meta) ident
        = .ok ⟨emptyDF, [Msg.downloading fi.name, Msg.downloadError]⟩)
    ∧ (∀ st content fmt, env.fetch fi.download_url = .resp st content → st < 400 →
      formatOfSingle (pyLower fi.name) = some fmt →
      env.parse fmt content = .parserError →
      ttDownloadFile env (some meta) ident
        = .ok ⟨emptyDF, [Msg.downloading fi.name, Msg.parseError]⟩)
    ∧ (∀ st content fmt, env.fetch fi.download_url = .resp st content → st < 400 →
      formatOfSingle (pyLower fi.name) = some fmt →
      env.parse fmt content = .otherError →
      ttDownloadFile env (some meta) ident = .error .pandasError) := by
  refine ⟨fun hnet => ?_, fun st content hresp hst => ?_,
    fun st content fmt hresp hst hfmt hp => ?_,
    fun st content fmt hresp hst hfmt hp => ?_⟩
  · unfold ttDownloadFile
    dsimp only
    rw [hl]
    dsimp only
    rw [hnet]
  · unfold ttDownloadFile
    dsimp only
    rw [hl]
    dsimp only
    rw [hresp]
    dsimp only
    rw [if_pos hst]
  · unfold ttDownloadFile
    dsimp only
    rw [hl]
    dsimp only
    rw [hresp]
    dsimp only
    rw [if_neg (by omega), hfmt]
    dsimp only
    rw [hp]
  · unfold ttDownloadFile
    dsimp only
    rw [hl]
    dsimp only
    rw [hresp]
    dsimp only
    rw [if_neg (by omega), hfmt]
    dsimp only
    rw [hp]

theorem claim_C8_counterexample :
    ttDownloadFile c8oenv (some c8meta) (.byName "bad.csv") = .error .pandasError
    ∧ isOkE (ttDownloadFile c8oenv (some c8meta) (.byName "bad.csv")) = false :=
  ⟨by decide, by decide⟩

theorem claim_C8_witness :
    ttDownloadFile c8env (some c8meta) (.byName "gone.csv")
      = .ok ⟨emptyDF, [Msg.downloading "gone.csv", Msg.downloadError]⟩
    ∧ ttDownloadFile c8env (some c8meta) (.byName "bad.csv")
      = .ok ⟨emptyDF, [Msg.downloading "bad.csv", Msg.parseError]⟩
    ∧ ttDownloadFile c8oenv (some c8meta) (.byName "bad.csv") = .error .pandasError :=
  ⟨(claim_C8_failures c8env c8meta (.byName "gone.csv") ⟨"gone.csv", "u2", "p2"⟩
      (by decide)).1 (by decide),
   (claim_C8_failures c8env c8meta (.byName "bad.csv") ⟨"bad.csv", "u1", "p1"⟩
      (by decide)).2.2.1 200 "a,b" .csv (by decide) (by decide) (by decide) (by decide),
   (claim_C8_failures c8oenv c8meta (.byName "bad.csv") ⟨"bad.csv", "u1", "p1"⟩
      (by decide)).2.2.2 200 "x" .csv (by decide) (by decide) (by decide) (by decide)⟩

/-- Claim C9 (corrected): the `path = "{year}/{date}"` half of the claimed
invariant holds for every produced entry (from either tier), and every date
matches the `YYYY-MM-DD` pattern; but "date falls within the requested
year" is not enforced anywhere: the date string is taken verbatim from the
source (table cell or directory name) and may belong to another year.
Amended: every entry satisfies the path invariant, matches the date
pattern, and its date string originates verbatim from the environment's
table cells or directory names. -/
theorem claim_C9_amended (env : DatasetsEnv) (year : String) :
    ∀ e ∈ (ttDatasets env year).result,
      e.path = year ++ "/" ++ e.date ∧ isDatePat e.date = true
      ∧ e.date ∈ sourceDateStrings env := by
  intro e he
  rcases ttDatasets_result_cases env year with h | ⟨l, c, hraw, h⟩
  · rw [h] at he
    exact absurd he (List.not_mem_nil e)
  · rw [h] at he
    exact ttDatasetsRaw_sources env year l c hraw e ((List.mem_insertionSort dateLe).mp he)

theorem claim_C9_counterexample :
    ((ttDatasets c9env "2025").result.map (fun e => (e.date, e.path)))
      = [("1999-01-05", "2025/1999-01-05")]
    ∧ pyTake "1999-01-05" 4 ≠ "2025" := by
  constructor
  · decide
  · decide

theorem claim_C9_witness :
    (⟨"1999-01-05", "Old", "2025/1999-01-05"⟩ : Entry) ∈ (ttDatasets c9env "2025").result
    ∧ ((⟨"1999-01-05", "Old", "2025/1999-01-05"⟩ : Entry).path
        = "2025" ++ "/" ++ (⟨"1999-01-05", "Old", "2025/1999-01-05"⟩ : Entry).date
      ∧ isDatePat (⟨"1999-01-05", "Old", "2025/1999-01-05"⟩ : Entry).date = true
      ∧ (⟨"1999-01-05", "Old", "2025/1999-01-05"⟩ : Entry).date ∈ sourceDateStrings c9env) :=
  ⟨by decide, claim_C9_amended c9env "2025" ⟨"1999-01-05", "Old", "2025/1999-01-05"⟩
    (by decide)⟩

/-- Claim C10 (corrected): the composite `tt_load` returns is NOT all of
`ReleaseMetadata` plus the data mapping — the dictionary literal of lines
498-504 omits the `files` field, and the `**data` spread carries Python
dict overwrite semantics, so a frame whose base name equals one of the four
metadata keys replaces that metadata entry.  Amended: on every successfully
resolved release the composite's keys are exactly `date`, `year`,
`readme_content`, `readme_html` plus the downloaded base names; each
metadata value sits under its key whenever no data frame shadows it; every
downloaded base name is a key; and a `files` key appears only if a data
file's base name is itself `files`. -/
theorem claim_C10_amended (env : LoadEnv) (arg : GhArg) (sel : FilesSel)
    (out : GhOut) (meta : TTMeta)
    (h1 : ttLoadGh env.gh arg = .ok out) (h2 : out.ret = some meta) :
    (∀ a, a ∈ loadKeys (ttLoad env arg sel) ↔
      (a = "date" ∨ a = "year" ∨ a = "readme_content" ∨ a = "readme_html"
        ∨ a ∈ (ttDownload env.dl (some meta) sel).result.map Prod.fst))
    ∧ ("date" ∉ (ttDownload env.dl (some meta) sel).result.map Prod.fst →
        ("date", PyVal.s meta.date) ∈ loadDict (ttLoad env arg sel))
    ∧ ("year" ∉ (ttDownload env.dl (some meta) sel).result.map Prod.fst →
        ("year", PyVal.s meta.year) ∈ loadDict (ttLoad env arg sel))
    ∧ ("readme_content" ∉ (ttDownload env.dl (some meta) sel).result.map Prod.fst →
        ("readme_content", PyVal.s meta.readme_content) ∈ loadDict (ttLoad env arg sel))
    ∧ ("readme_html" ∉ (ttDownload env.dl (some meta) sel).result.map Prod.fst →
        ("readme_html", PyVal.s meta.readme_html) ∈ loadDict (ttLoad env arg sel))
    ∧ (∀ p ∈ (ttDownload env.dl (some meta) sel).result,
        p.1 ∈ loadKeys (ttLoad env arg sel))
    ∧ ("files" ∈ loadKeys (ttLoad env arg sel) ↔
        "files" ∈ (ttDownload env.dl (some meta) sel).result.map Prod.fst) := by
  have hld : ttLoad env arg sel =
      .ok ⟨compositeDict meta (ttDownload env.dl (some meta) sel).result,
        out.msgs ++ (ttDownload env.dl (some meta) sel).msgs⟩ := by
    unfold ttLoad
    rw [h1]
    dsimp only
    rw [h2]
  have hkeys : ∀ a, a ∈ loadKeys (ttLoad env arg sel) ↔
      (a = "date" ∨ a = "year" ∨ a = "readme_content" ∨ a = "readme_html"
        ∨ a ∈ (ttDownload env.dl (some meta) sel).result.map Prod.fst) := by
    intro a
    rw [hld]
    unfold loadKeys loadDict compositeDict
    rw [foldInsert_keys]
    simp only [List.map_cons, List.map_nil, List.mem_cons, List.not_mem_nil, or_false]
    tauto
  have hpres : ∀ k v, (k, v) ∈
        [("date", PyVal.s meta.date), ("year", PyVal.s meta.year),
         ("readme_content", PyVal.s meta.readme_content),
         ("readme_html", PyVal.s meta.readme_html)] →
      k ∉ (ttDownload env.dl (some meta) sel).result.map Prod.fst →
      (k, v) ∈ loadDict (ttLoad env arg sel) := by
    intro k v hkv hk
    rw [hld]
    unfold loadDict compositeDict
    exact foldInsert_preserve _ _ k v hkv hk
  refine ⟨hkeys, fun h => hpres _ _ (by simp) h, fun h => hpres _ _ (by simp) h,
    fun h => hpres _ _ (by simp) h, fun h => hpres _ _ (by simp) h, ?_, ?_⟩
  · intro p hp
    exact (hkeys p.1).mpr (Or.inr (Or.inr (Or.inr (Or.inr
      (List.mem_map.mpr ⟨p, hp, rfl⟩)))))
  · rw [hkeys "files"]
    constructor
    · rintro (h | h | h | h | h)
      · exact absurd h (by decide)
      · exact absurd h (by decide)
      · exact absurd h (by decide)
      · exact absurd h (by decide)
      · exact h
    · exact fun h => Or.inr (Or.inr (Or.inr (Or.inr h)))

theorem claim_C10_counterexample :
    ghFiles (ttLoadGh c10gh (.date "2025-01-07")) = [⟨"flights.csv", "u1", "p1"⟩]
    ∧ loadKeys (ttLoad c10env (.date "2025-01-07") .all)
        = ["date", "year", "readme_content", "readme_html", "flights"]
    ∧ "files" ∉ loadKeys (ttLoad c10env (.date "2025-01-07") .all) :=
  ⟨by decide, by decide, by decide⟩

theorem claim_C10_witness :
    ("flights" ∈ loadKeys (ttLoad c10env (.date "2025-01-07") .all) ↔
      ("flights" = "date" ∨ "flights" = "year" ∨ "flights" = "readme_content"
        ∨ "flights" = "readme_html"
        ∨ "flights" ∈ (ttDownload c10env.dl
            (some ⟨"2025-01-07", "2025", [⟨"flights.csv", "u1", "p1"⟩], "hello",
              markdownToHtml "hello"⟩) .all).result.map Prod.fst))
    ∧ ("date", PyVal.s "2025-01-07") ∈ loadDict (ttLoad c10env (.date "2025-01-07") .all) :=
  ⟨(claim_C10_amended c10env (.date "2025-01-07") .all
      ⟨some ⟨"2025-01-07", "2025", [⟨"flights.csv", "u1", "p1"⟩], "hello",
        markdownToHtml "hello"⟩, []⟩
      ⟨"2025-01-07", "2025", [⟨"flights.csv", "u1", "p1"⟩], "hello",
        markdownToHtml "hello"⟩ rfl rfl).1 "flights",
   (claim_C10_amended c10env (.date "2025-01-07") .all
      ⟨some ⟨"2025-01-07", "2025", [⟨"flights.csv", "u1", "p1"⟩], "hello",
        markdownToHtml "hello"⟩, []⟩
      ⟨"2025-01-07", "2025", [⟨"flights.csv", "u1", "p1"⟩], "hello",
        markdownToHtml "hello"⟩ rfl rfl).2.1 (by decide)⟩

end PydyTuesday
